import Mathlib

/-!
Verification of the scoring / ROI / pricing engine of the lead-qualification
application (files `app/core/analysis.py`, `app/core/pricing.py`,
`app/core/llm.py`, `app/core/modules.py`, `app/core/models.py`).

The Python code is shallowly embedded: Python `float` values are modelled as
rationals (`ℚ`), Python strings as Lean `String`, JSON values returned by the
external language model as an explicit inductive type, and the single
network-call boundary as an explicit input (`Option (Option JObj)`:
`none` = the call produced no text, `some none` = text with no extractable
JSON, `some (some o)` = extracted JSON object `o`).  Environment-variable
configuration of the ROI constants is modelled by passing the configuration
record explicitly; `defaultLaborConfig` holds the hard-coded defaults used
when no environment override is present.  The merge step of
`consultant_diagnosis` can raise `AttributeError` in Python (see
`mergeDiagnosis` below), so it and everything downstream is embedded in
`Except String`.
-/

set_option maxRecDepth 2000

namespace Engine

/-! ## Python string / number primitives -/

/-- Character-list prefix test (used to model the Python `in` substring
operator). -/
def chPre : List Char → List Char → Bool
  | [], _ => true
  | _ :: _, [] => false
  | a :: as, b :: bs => a == b && chPre as bs

/-- Character-list substring test. -/
def chSub (needle : List Char) : List Char → Bool
  | [] => chPre needle []
  | b :: bs => chPre needle (b :: bs) || chSub needle bs

/-- Python `needle in hay` on strings. -/
def strContains (hay needle : String) : Bool :=
  chSub needle.data hay.data

/-- Python truthiness-based `or` on strings: `a or b`. -/
def pyOr (a b : String) : String :=
  if a = "" then b else a

/-- Python `opt or default` where `opt` is an optional string. -/
def pyOrOpt (a : Option String) (b : String) : String :=
  match a with
  | none => b
  | some s => if s = "" then b else s

/-- Python `round` (banker's rounding, half to even) on a rational. -/
def pyRound (q : ℚ) : ℤ :=
  let f := ⌊q⌋
  let frac := q - f
  if frac < 1/2 then f
  else if 1/2 < frac then f + 1
  else if f % 2 = 0 then f else f + 1

/-- Python `round(x, 2)`. -/
def pyRound2 (q : ℚ) : ℚ :=
  (pyRound (q * 100) : ℚ) / 100

/-- Python `round(x, 1)`. -/
def pyRound1 (q : ℚ) : ℚ :=
  (pyRound (q * 10) : ℚ) / 10

/-- Python format spec `:.1f` on a rational. -/
def fmt1 (q : ℚ) : String :=
  let n := pyRound (q * 10)
  let a := n.natAbs
  (if n < 0 then "-" else "") ++ toString (a / 10) ++ "." ++ toString (a % 10)

/-- One step of whitespace-run collapsing on an already
space-canonicalised character list. -/
def squeeze : List Char → List Char
  | [] => []
  | [c] => [c]
  | a :: b :: rest =>
      if a = ' ' && b = ' ' then squeeze (b :: rest) else a :: squeeze (b :: rest)

/-- `_normalize` from `analysis.py`: lower-case and collapse every whitespace
run to a single space (the Python code uses `re.sub(r"\s+", " ", ...)`). -/
def normalize (s : String) : String :=
  String.mk (squeeze ((s.toLower.data.map (fun c => if c.isWhitespace then ' ' else c))))

/-! ## Data model (`app/core/models.py`) -/

/-- `BusinessInput` (pydantic model).  Numeric validation constraints
(`team_size ≥ 1`, `manual_hours_per_week ≥ 0`, `len(bottlenecks) ≥ 5`) are
attached as hypotheses where a claim needs them. -/
structure BusinessInput where
  company_name : String
  industry : String
  business_focus : String
  region : String := "LATAM"
  team_size : ℕ
  team_size_target : Option ℕ := none
  team_focus_same : Option Bool := none
  team_roles : Option String := none
  employee_band : Option String := none
  transaction_volume : Option String := none
  tooling_level : Option String := none
  manual_hours_per_week : ℚ := 0
  selected_modules : List String := []
  avg_daily_cost_mxn : Option ℚ := none
  manual_days_per_week : Option ℚ := none
  processes : String := ""
  bottlenecks : String
  systems : String := ""
  goals : String := ""
  budget_range : Option String := none
  contact_email : Option String := none
  contact_whatsapp : Option String := none
  deriving DecidableEq

/-- `AutomationModule`. -/
structure AutomationModule where
  name : String
  description : String
  effort : String
  impact : ℕ
  integrations : List String
  estimated_weeks : ℕ
  tags : List String
  deriving DecidableEq

/-- `RoadmapPhase`. -/
structure RoadmapPhase where
  name : String
  focus : String
  duration_weeks : ℕ
  duration_label : Option String := none
  deliverable : String
  deriving DecidableEq

/-- `PricingQuote` (the static `assumptions` disclaimer list is
presentation-only and not modelled). -/
structure PricingQuote where
  setup_fee_mxn : ℤ
  monthly_retainer_mxn : ℤ
  implementation_tier : Option String := none
  implementation_eta : Option String := none
  service_tier : Option String := none
  service_tier_reason : Option String := none
  suggested_range_min_mxn : Option ℤ := none
  suggested_range_max_mxn : Option ℤ := none
  roi_annual_formula_mxn : Option ℚ := none
  roi_annual_net_mxn : Option ℚ := none
  roi_multiple : Option ℚ := none
  roi_adjusted_to_3x : Bool := false
  deriving DecidableEq

/-- `AnalysisOutput` (the `notes` summary string is carried;
the static `assumptions` list of the embedded quote is omitted). -/
structure AnalysisOutput where
  friction_points : List String
  recommended_modules : List AutomationModule
  optional_modules : List AutomationModule := []
  opportunities : List String := []
  limitations : List String := []
  data_needed : List String := []
  primary_bottleneck : String := ""
  roi_hours_saved_per_month : ℚ
  roi_time_value_mxn_per_month : ℚ := 0
  roi_error_cost_mxn_per_month : ℚ := 0
  roi_error_savings_mxn_per_month : ℚ := 0
  roi_opportunity_mxn_per_month : ℚ := 0
  roi_total_with_opportunity_mxn_per_month : ℚ := 0
  roi_total_with_opportunity_mxn_per_year : ℚ := 0
  roi_loaded_daily_cost_mxn : ℚ := 0
  roi_loaded_monthly_cost_mxn : ℚ := 0
  roi_rotation_cost_mxn_per_hire : ℚ := 0
  roi_fte_equivalent : ℚ := 0
  roi_mxn_saved_per_month : ℚ
  payback_months : ℚ
  roadmap : List RoadmapPhase
  pricing : PricingQuote
  notes : String
  deriving DecidableEq

/-! ## Module catalog (`app/core/modules.py`) -/

/-- The static, ordered module catalog. -/
def catalog : List AutomationModule :=
  [ { name := "Bot de ventas para WhatsApp"
    , description := "Captura leads, responde FAQs, califica prospectos y agenda llamadas."
    , effort := "M", impact := 5
    , integrations := ["WhatsApp", "CRM"]
    , estimated_weeks := 3
    , tags := ["whatsapp", "ventas", "leads", "seguimiento", "cotizacion", "citas", "agenda", "reservas"] }
  , { name := "Chatbot de atencion al cliente"
    , description := "Responde preguntas frecuentes en web o WhatsApp y escala a un humano."
    , effort := "M", impact := 4
    , integrations := ["Webchat", "WhatsApp", "CRM"]
    , estimated_weeks := 3
    , tags := ["chatbot", "soporte", "web", "whatsapp", "faq", "citas", "agenda"] }
  , { name := "Conciliacion bancaria automatica"
    , description := "Cruza movimientos bancarios con facturas y reportes contables."
    , effort := "M", impact := 4
    , integrations := ["Banco", "ERP", "Contabilidad"]
    , estimated_weeks := 3
    , tags := ["banco", "conciliacion", "contabilidad", "tesoreria"] }
  , { name := "Sincronizacion Shopify-ERP"
    , description := "Actualiza inventario, pedidos y clientes entre Shopify y ERP."
    , effort := "L", impact := 4
    , integrations := ["Shopify", "ERP"]
    , estimated_weeks := 4
    , tags := ["shopify", "inventario", "erp", "stock", "pedido"] }
  , { name := "Facturacion inteligente"
    , description := "Genera facturas, valida datos y envia comprobantes automaticamente."
    , effort := "S", impact := 3
    , integrations := ["Facturacion", "Correo"]
    , estimated_weeks := 2
    , tags := ["factura", "facturacion", "comprobante", "correo", "sat"] }
  , { name := "Reportes y dashboards operativos"
    , description := "Convierte datos dispersos en dashboards semanales con alertas."
    , effort := "S", impact := 3
    , integrations := ["BI", "Google Sheets"]
    , estimated_weeks := 2
    , tags := ["reporte", "dashboard", "kpi", "excel", "administracion", "indicadores"] }
  , { name := "Ruteo de tickets de soporte"
    , description := "Clasifica tickets y asigna SLA automaticamente."
    , effort := "S", impact := 3
    , integrations := ["Helpdesk"]
    , estimated_weeks := 2
    , tags := ["soporte", "ticket", "servicio", "sla"] }
  , { name := "Enriquecimiento y limpieza de CRM"
    , description := "Depura duplicados y completa datos de clientes."
    , effort := "S", impact := 2
    , integrations := ["CRM"]
    , estimated_weeks := 1
    , tags := ["crm", "duplicado", "limpieza", "datos"] }
  , { name := "Onboarding de personal"
    , description := "Automatiza checklist, accesos y capacitaciones."
    , effort := "S", impact := 2
    , integrations := ["HR", "Correo"]
    , estimated_weeks := 1
    , tags := ["onboarding", "rh", "recursos humanos", "capacitar"] }
  , { name := "Automatizacion de correo"
    , description := "Clasifica, etiqueta y responde correos repetitivos."
    , effort := "S", impact := 3
    , integrations := ["Correo"]
    , estimated_weeks := 2
    , tags := ["correo", "email", "bandeja", "seguimiento"] }
  ]

/-! ## Pricing (`app/core/pricing.py`) -/

/-- `ServiceTierDecision`. -/
structure ServiceTierDecision where
  tier : String
  min_price_mxn : ℤ
  max_price_mxn : ℤ
  reason : String
  deriving DecidableEq

/-- `SERVICE_TIER_RANGES_MXN`. -/
def SERVICE_TIER_RANGES_MXN (tier : String) : ℤ × ℤ :=
  if tier = "MICRO" then (2000, 3000)
  else if tier = "LITE" then (8000, 12000)
  else if tier = "GROWTH" then (25000, 45000)
  else if tier = "ELITE" then (60000, 120000)
  else (0, 0)

/-- `TOOLING_COMPLEXITY.get(label, 1)`. -/
def TOOLING_COMPLEXITY (label : String) : ℤ :=
  if label = "solo_whatsapp" then 0
  else if label = "excel" then 1
  else if label = "shopify" then 2
  else if label = "erp_complejo" then 3
  else 1

/-- `_employee_band_from_team_size`. -/
def employee_band_from_team_size (team_size : ℕ) : String :=
  if team_size ≤ 5 then "1-5"
  else if team_size ≤ 20 then "6-20"
  else "21-100+"

/-- The normalized employee band used by `decide_service_tier`
(`payload.employee_band or _employee_band_from_team_size(...)`, stripped). -/
def bandOf (payload : BusinessInput) : String :=
  (pyOrOpt payload.employee_band (employee_band_from_team_size payload.team_size)).trim

/-- The normalized transaction-volume label of `decide_service_tier`. -/
def volumeOf (payload : BusinessInput) : String :=
  (pyOrOpt payload.transaction_volume "").trim.toLower

/-- The normalized tooling label of `decide_service_tier`. -/
def toolingOf (payload : BusinessInput) : String :=
  (pyOrOpt payload.tooling_level "").trim.toLower

/-- The advanced-scale keyword list of `decide_service_tier`. -/
def eliteKeywords : List String :=
  ["memoria", "scraping", "masivo", "trading", "erp", "multi-sucursal", "multisucursal"]

/-- `elite_signals` of `decide_service_tier` (`raw` is the lower-cased pain
text). -/
def eliteSignals (payload : BusinessInput) (raw : String) : Bool :=
  (eliteKeywords.any (fun key => strContains raw key)) || toolingOf payload == "erp_complejo"

/-- `micro_signals` of `decide_service_tier`. -/
def microSignals (raw : String) : Bool :=
  ["agenda", "citas", "recordatorio", "calendario", "personal", "asistente personal"].any
    (fun key => strContains raw key)

/-- `growth_signals` of `decide_service_tier`. -/
def growthSignals (selected_modules : List String) (raw : String) : Bool :=
  (["ventas", "crm", "pipeline", "leads", "inventario", "soporte"].any
    (fun key => strContains raw key)) || !selected_modules.isEmpty

/-- `decide_service_tier`. -/
def decide_service_tier (payload : BusinessInput) (pain_text : String)
    (selected_modules : List String) (complexity_level : Option String) :
    ServiceTierDecision :=
  let employee_band := bandOf payload
  let volume := volumeOf payload
  let tooling := toolingOf payload
  let raw := pain_text.toLower
  let selectedCount := selected_modules.dedup.length
  let team_size := max 1 payload.team_size
  let micro_signals := microSignals raw
  let ultra_micro_size := team_size ≤ 2
  let elite_signals := eliteSignals payload raw
  let growth_signals := growthSignals selected_modules raw
  if elite_signals || employee_band == "21-100+" || volume == "alto"
      || complexity_level == some "high" then
    { tier := "ELITE", min_price_mxn := 60000, max_price_mxn := 120000
    , reason := "Operacion de alto volumen o integraciones avanzadas (ERP/IA compleja)." }
  else if employee_band == "1-5" && (volume == "" || volume == "bajo")
      && (tooling == "" || tooling == "solo_whatsapp" || tooling == "excel")
      && (selectedCount ≤ 1 || micro_signals || ultra_micro_size) then
    { tier := "MICRO", min_price_mxn := 2000, max_price_mxn := 3000
    , reason := "Uso personal o micro-negocio con alcance puntual (agenda/chatbot basico)." }
  else if (employee_band == "1-5" && (volume == "" || volume == "bajo")
      && (tooling == "" || tooling == "solo_whatsapp" || tooling == "excel"))
      || complexity_level == some "low" then
    { tier := "LITE", min_price_mxn := 8000, max_price_mxn := 12000
    , reason := "Micro-negocio con flujo simple y enfoque en automatizacion rapida." }
  else if team_size ≤ 10 && (volume == "" || volume == "bajo")
      && (tooling == "" || tooling == "solo_whatsapp" || tooling == "excel")
      && !elite_signals && complexity_level != some "high" then
    { tier := "LITE", min_price_mxn := 8000, max_price_mxn := 12000
    , reason := "Negocio pequeno de bajo volumen: conviene empezar en LITE y escalar por modulos." }
  else if growth_signals || employee_band == "6-20" || volume == "medio"
      || complexity_level == some "medium" then
    { tier := "GROWTH", min_price_mxn := 25000, max_price_mxn := 45000
    , reason := "PyME con procesos comerciales/operativos que requieren integraciones." }
  else
    { tier := "GROWTH", min_price_mxn := 25000, max_price_mxn := 45000
    , reason := "Perfil intermedio con potencial de escalamiento." }

/-- `suggest_setup_price`. -/
def suggest_setup_price (tier_decision : ServiceTierDecision)
    (selected_modules : List String) (tooling_level : Option String)
    (transaction_volume : Option String) : ℤ :=
  let module_count : ℤ := selected_modules.length
  if tier_decision.tier = "MICRO" then
    let raw_micro := tier_decision.min_price_mxn + module_count * 500
    let bounded_micro := min tier_decision.max_price_mxn (max tier_decision.min_price_mxn raw_micro)
    pyRound ((bounded_micro : ℚ) / 100) * 100
  else
    let tooling_score := TOOLING_COMPLEXITY ((pyOrOpt tooling_level "").trim.toLower)
    let volume_score : ℤ :=
      let v := (pyOrOpt transaction_volume "").trim.toLower
      if v = "bajo" then 0 else if v = "medio" then 1 else if v = "alto" then 2 else 1
    let extra := module_count * 1500 + tooling_score * 2000 + volume_score * 2500
    let raw := tier_decision.min_price_mxn + extra
    let bounded := min tier_decision.max_price_mxn (max tier_decision.min_price_mxn raw)
    pyRound ((bounded : ℚ) / 500) * 500

/-- `enforce_irresistible_roi`: returns `(final_price, adjusted, max_for_3x)`. -/
def enforce_irresistible_roi (price_mxn : ℚ) (annual_savings_mxn : ℚ) :
    ℤ × Bool × ℚ :=
  let investment := max 1 price_mxn
  let annual_savings := max 0 annual_savings_mxn
  let max_for_3x := annual_savings / 3
  let (investment, adjusted) :=
    if max_for_3x > 0 ∧ investment > max_for_3x then (max 1000 max_for_3x, true)
    else (investment, false)
  let final_price := pyRound (investment / 500) * 500
  let final_price := max 1000 final_price
  (final_price, adjusted, max_for_3x)

/-- `estimate_complexity_level`. -/
def estimate_complexity_level (num_empleados : ℕ) : String :=
  if num_empleados ≤ 5 then "low"
  else if num_empleados ≤ 25 then "medium"
  else "high"

/-! ## ROI estimator (`app/core/pricing.py`) -/

/-- `ROIBreakdown`. -/
structure ROIBreakdown where
  time_value_mxn_per_month : ℚ
  error_cost_mxn_per_month : ℚ
  error_savings_mxn_per_month : ℚ
  opportunity_cost_mxn_per_month : ℚ
  total_mxn_per_month : ℚ
  total_with_opportunity_mxn_per_month : ℚ
  total_mxn_per_year : ℚ
  total_with_opportunity_mxn_per_year : ℚ
  error_risk_factor : ℚ
  manual_hours_per_month : ℚ
  manual_jornadas_per_month : ℚ
  loaded_daily_cost_mxn : ℚ
  loaded_monthly_cost_mxn : ℚ
  rotation_cost_mxn_per_hire : ℚ
  fte_equivalent : ℚ
  deriving DecidableEq

/-- The five labour-cost constants of `_labor_cost_config` (each readable from
an environment variable in the source; the record models the resolved
configuration). -/
structure LaborConfig where
  net_monthly : ℚ
  benefits_rate : ℚ
  workdays : ℚ
  hours_day : ℚ
  weeks_month : ℚ
  deriving DecidableEq

/-- The hard-coded defaults (`DEFAULT_NET_MONTHLY_SALARY_MXN = 10_000`,
`DEFAULT_BENEFITS_RATE = 0.30`, `WORKDAYS_PER_MONTH_MX = 22`,
`HOURS_PER_DAY = 8`, `WEEKS_PER_MONTH = 4.33`). -/
def defaultLaborConfig : LaborConfig :=
  { net_monthly := 10000, benefits_rate := 3/10, workdays := 22
  , hours_day := 8, weeks_month := 433/100 }

/-- `ERROR_REDUCTION_FACTOR = 0.6`. -/
def ERROR_REDUCTION_FACTOR : ℚ := 6/10

/-- The `admin_keywords` list of `_error_risk_factor` (repeated literally in
`_rotation_training_days`). -/
def errorAdminKeywords : List String :=
  ["carpeta", "carpetas", "archivo", "archivos", "organizar",
   "papeleo", "documento", "documentos", "contrato", "firmar", "firma", "pdf"]

/-- The `finance_keywords` list of `_error_risk_factor`. -/
def errorFinanceKeywords : List String :=
  ["banco", "conciliacion", "tesoreria", "contabilidad",
   "factura", "facturacion", "inventario", "stock"]

/-- The admin-priority selection test of `_error_risk_factor` /
`_rotation_training_days`. -/
def adminSelected (modulos_seleccionados : List String) : Bool :=
  modulos_seleccionados.contains "eficiencia_administrativa"
    || modulos_seleccionados.contains "documentos_inteligentes"

/-- The finance-priority selection test of `_error_risk_factor`. -/
def financeSelected (modulos_seleccionados : List String) : Bool :=
  modulos_seleccionados.contains "conciliacion_automatica"
    || modulos_seleccionados.contains "inventarios_datos"

/-- `any(k in raw for k in admin_keywords)` over the lower-cased text. -/
def adminTextSignal (text : String) : Bool :=
  errorAdminKeywords.any (fun k => strContains text.toLower k)

/-- `any(k in raw for k in finance_keywords)` over the lower-cased text. -/
def financeTextSignal (text : String) : Bool :=
  errorFinanceKeywords.any (fun k => strContains text.toLower k)

/-- `_error_risk_factor`. -/
def error_risk_factor (text : String) (modulos_seleccionados : List String) : ℚ :=
  if adminSelected modulos_seleccionados then 35/100
  else if financeSelected modulos_seleccionados then 25/100
  else if adminTextSignal text then 35/100
  else if financeTextSignal text then 25/100
  else 15/100

/-- `_opportunity_factor`. -/
def opportunity_factor (text : String) (modulos_seleccionados : List String) : ℚ :=
  let raw := text.toLower
  if modulos_seleccionados.contains "whatsapp_ventas" then 8/10
  else
    let sales_keywords := ["ventas", "lead", "leads", "prospect", "prospecto",
      "prospectos", "whatsapp", "conversion", "cotizacion", "cotizar", "cierre",
      "seguimiento", "mensaje", "mensajes", "clientes", "atencion", "responder", "soporte"]
    if sales_keywords.any (fun k => strContains raw k) then 6/10 else 3/10

/-- `_rotation_training_days`. -/
def rotation_training_days (text : String) (modulos_seleccionados : List String) : ℕ :=
  if adminSelected modulos_seleccionados then 10
  else if adminTextSignal text then 10 else 7

/-- `roi_breakdown`.  The labour-cost configuration is passed explicitly
(the source reads it from the environment inside the function). -/
def roi_breakdown (cfg : LaborConfig) (horas_manuales_semana : ℚ)
    (pain_text : String) (modulos_seleccionados : List String) : ROIBreakdown :=
  let hours_week := max 0 horas_manuales_semana
  let loaded_monthly := cfg.net_monthly * (1 + cfg.benefits_rate)
  let loaded_daily := loaded_monthly / max cfg.workdays 1
  let loaded_hourly := loaded_daily / max cfg.hours_day 1
  let manual_hours_month := hours_week * cfg.weeks_month
  let manual_jornadas_month := manual_hours_month / max cfg.hours_day 1
  let time_monthly := manual_hours_month * loaded_hourly
  let factor := error_risk_factor pain_text modulos_seleccionados
  let error_cost := time_monthly * factor
  let error_savings := error_cost * ERROR_REDUCTION_FACTOR
  let opportunity := time_monthly * opportunity_factor pain_text modulos_seleccionados
  let total_monthly := time_monthly + error_savings
  let total_with_opportunity := total_monthly + opportunity
  let total_year := total_monthly * 12
  let total_with_opportunity_year := total_with_opportunity * 12
  let training_days := rotation_training_days pain_text modulos_seleccionados
  let rotation_cost := loaded_daily * training_days
  let fte_equivalent := manual_jornadas_month / max cfg.workdays 1
  { time_value_mxn_per_month := time_monthly
  , error_cost_mxn_per_month := error_cost
  , error_savings_mxn_per_month := error_savings
  , opportunity_cost_mxn_per_month := opportunity
  , total_mxn_per_month := total_monthly
  , total_with_opportunity_mxn_per_month := total_with_opportunity
  , total_mxn_per_year := total_year
  , total_with_opportunity_mxn_per_year := total_with_opportunity_year
  , error_risk_factor := factor
  , manual_hours_per_month := manual_hours_month
  , manual_jornadas_per_month := manual_jornadas_month
  , loaded_daily_cost_mxn := loaded_daily
  , loaded_monthly_cost_mxn := loaded_monthly
  , rotation_cost_mxn_per_hire := rotation_cost
  , fte_equivalent := fte_equivalent }

/-! ## Analysis (`app/core/analysis.py`) -/

/-- `HOURS_PER_DAY` constant of `analysis.py`. -/
def ANALYSIS_HOURS_PER_DAY : ℚ := 8

/-- `_automation_scope_factor`. -/
def automation_scope_factor (payload : BusinessInput) : ℚ :=
  let text := normalize
    (payload.business_focus ++ " " ++ payload.processes ++ " " ++ (payload.team_roles.getD ""))
  let restricted := ["consultorio", "clinica", "dentista", "medico", "salud",
    "restaurante", "cocina", "chef", "barberia", "estetica"]
  let factor : ℚ := 1
  let factor := if restricted.any (fun w => strContains text w) then factor * (65/100) else factor
  let factor := if payload.team_focus_same = some false then factor * (85/100) else factor
  max (4/10) factor

/-- The per-module allow-gate table of `_module_allowed`. -/
def moduleGate (name : String) : List String :=
  if name = "Sincronizacion Shopify-ERP" then
    ["shopify", "ecommerce", "tienda online", "tienda en linea", "woocommerce"]
  else if name = "Conciliacion automatica (banco vs ventas)" then
    ["banco", "conciliacion", "tesoreria", "finanzas", "contabilidad", "ventas"]
  else if name = "Facturacion inteligente" then
    ["factura", "facturacion", "comprobante", "sat"]
  else if name = "Ruteo de tickets de soporte" then
    ["ticket", "soporte", "helpdesk", "sla"]
  else if name = "Enriquecimiento y limpieza de CRM" then
    ["crm", "leads", "ventas"]
  else if name = "Bot de ventas para WhatsApp" then
    ["whatsapp", "ventas", "leads", "cotizacion", "prospectos", "citas", "agenda",
     "reservas", "turnos"]
  else if name = "Chatbot de atencion al cliente" then
    ["chatbot", "soporte", "clientes", "atencion", "faq", "citas", "agenda"]
  else if name = "Onboarding de personal" then
    ["rh", "recursos humanos", "onboarding", "personal", "nomina"]
  else if name = "Eficiencia administrativa (archivos y carpetas)" then
    ["carpeta", "carpetas", "archivo", "archivos", "documento", "documentos",
     "organizar", "papeleo", "drive", "onedrive", "dropbox"]
  else if name = "Generador de documentos inteligente" then
    ["factura", "facturacion", "contrato", "cotizacion", "pdf", "recibo", "firma", "firmar"]
  else []

/-- `_module_allowed`. -/
def module_allowed (text : String) (m : AutomationModule) : Bool :=
  let required := moduleGate m.name
  if required.isEmpty then true
  else required.any (fun key => strContains text key)

/-- The ordered pattern table of `_pick_friction_points`. -/
def frictionPatterns : List (String × List String) :=
  [ ("Tu equipo pierde horas cada semana en tareas repetitivas (capturas, copiar/pegar, Excel).",
      ["manual", "excel", "copiar", "pegar", "captura"])
  , ("Tienes caos administrativo: se pierden archivos, carpetas y versiones (y eso cuesta dinero).",
      ["carpeta", "carpetas", "archivo", "archivos", "documento", "documentos",
       "papeleo", "organizar", "drive", "onedrive", "dropbox"])
  , ("Los errores de copiar/pegar en documentos (cotizaciones, contratos, facturas) te salen caros.",
      ["cotizacion", "cotizar", "contrato", "factura", "facturacion", "pdf", "firma", "firmar"])
  , ("Se te pueden ir ventas porque los leads se pierden entre WhatsApp, correos y notas.",
      ["whatsapp", "correo", "seguimiento", "leads", "prospect"])
  , ("Tus clientes esperan demasiado por una respuesta (y eso mata conversion).",
      ["soporte", "ticket", "respuesta", "tard", "espera", "sla"])
  , ("Pierdes ventas por inventario desactualizado (no sabes que hay realmente).",
      ["inventario", "stock", "erp", "shopify"])
  , ("La facturacion te frena: capturas, correcciones y envios manuales.",
      ["factura", "facturacion", "comprobante", "cfdi", "sat"])
  , ("Tus finanzas se cierran tarde por conciliacion manual y errores de captura.",
      ["banco", "conciliacion", "tesoreria", "contabilidad"])
  , ("Tus reportes llegan tarde: tomas decisiones sin datos al dia.",
      ["reporte", "dashboard", "kpi", "indicador"])
  ]

/-- `_pick_friction_points`. -/
def pick_friction_points (payload : BusinessInput) : List String :=
  let raw := payload.processes ++ " " ++ payload.bottlenecks ++ " " ++ payload.systems
    ++ " " ++ payload.business_focus ++ " " ++ (payload.team_roles.getD "")
  let text := normalize raw
  let points := (frictionPatterns.filter
    (fun p => p.2.any (fun key => strContains text key))).map Prod.fst
  if points.isEmpty then
    ["Hay tiempos muertos y poca visibilidad: hoy no sabes que pasa en tiempo real."]
  else points

/-- The `selection_map` priority-key-to-module-names table of `_score_modules`
(unknown keys expand to the empty list, as `selection_map.get(key, [])` does). -/
def selectionMap (key : String) : List String :=
  if key = "whatsapp_ventas" then
    ["Bot de ventas para WhatsApp", "Chatbot de atencion al cliente"]
  else if key = "inventarios_datos" then
    ["Sincronizacion Shopify-ERP", "Reportes y dashboards operativos",
     "Conciliacion automatica (banco vs ventas)"]
  else if key = "dashboards_reportes" then
    ["Reportes y dashboards operativos"]
  else if key = "eficiencia_administrativa" then
    ["Eficiencia administrativa (archivos y carpetas)"]
  else if key = "documentos_inteligentes" then
    ["Generador de documentos inteligente", "Facturacion inteligente"]
  else if key = "conciliacion_automatica" then
    ["Conciliacion automatica (banco vs ventas)"]
  else []

/-- Membership in the `explicitly_requested` set of `_score_modules`. -/
def explicitlyRequested (selected_keys : List String) (name : String) : Bool :=
  selected_keys.any (fun key => (selectionMap key).contains name)

/-- The admin-pain keyword list of `_score_modules`. -/
def scoreAdminKeywords : List String :=
  ["carpeta", "carpetas", "archivo", "archivos", "firmar", "firma", "organizar",
   "organizacion", "papeleo", "papel", "documento", "documentos"]

/-- The combined normalized text `_score_modules` matches against. -/
def scoreText (payload : BusinessInput) : String :=
  normalize (payload.processes ++ " " ++ payload.bottlenecks ++ " " ++ payload.systems
    ++ " " ++ payload.goals ++ " " ++ payload.business_focus ++ " "
    ++ (payload.team_roles.getD ""))

/-- The score of one module in `_score_modules`. -/
def moduleScore (text : String) (selected_keys : List String) (has_admin_pain : Bool)
    (m : AutomationModule) : ℕ :=
  (m.tags.filter (fun tag => strContains text tag)).length
  + (if explicitlyRequested selected_keys m.name then 5 else 0)
  + (if has_admin_pain && m.name == "Eficiencia administrativa (archivos y carpetas)"
      then 6 else 0)
  + (if has_admin_pain && m.name == "Generador de documentos inteligente" then 4 else 0)

/-- The `has_admin_pain` flag of `_score_modules`. -/
def hasAdminPain (payload : BusinessInput) : Bool :=
  scoreAdminKeywords.any (fun key => strContains (scoreText payload) key)

/-- The scored-and-gated list `scored` of `_score_modules` (in catalog order,
before sorting). -/
def scoredModules (payload : BusinessInput) : List (ℕ × AutomationModule) :=
  (catalog.map (fun m =>
    (moduleScore (scoreText payload) payload.selected_modules (hasAdminPain payload) m, m))).filter
    (fun p => decide (0 < p.1)
      && (explicitlyRequested payload.selected_modules p.2.name
          || module_allowed (scoreText payload) p.2))

/-- Stable insertion into a list sorted by descending score (models the stable
`list.sort(key=..., reverse=True)` of Python). -/
def insertDesc (x : ℕ × AutomationModule) :
    List (ℕ × AutomationModule) → List (ℕ × AutomationModule)
  | [] => [x]
  | y :: ys => if x.1 ≥ y.1 then x :: y :: ys else y :: insertDesc x ys

/-- Stable sort by descending score. -/
def sortDesc : List (ℕ × AutomationModule) → List (ℕ × AutomationModule)
  | [] => []
  | x :: xs => insertDesc x (sortDesc xs)

/-- The generic fallback module-name list of `_score_modules` (in its own
priority order). -/
def genericFallbackNames : List String :=
  ["Eficiencia administrativa (archivos y carpetas)",
   "Generador de documentos inteligente",
   "Reportes y dashboards operativos",
   "Conciliacion automatica (banco vs ventas)",
   "Facturacion inteligente"]

/-- The sorted module ranking of `_score_modules` (stable sort by descending
score; Python's `list.sort` is stable, so catalog order breaks ties). -/
def rankedModules (payload : BusinessInput) : List AutomationModule :=
  (sortDesc (scoredModules payload)).map Prod.snd

/-- `_score_modules`: returns `(selected, optional)`. -/
def score_modules (payload : BusinessInput) :
    List AutomationModule × List AutomationModule :=
  let ranked := rankedModules payload
  let selected := ranked.take 5
  let optional := ((ranked.drop 5).take 4).filter (fun m => ¬ selected.contains m)
  let pair :=
    if selected.isEmpty then
      let ranked2 := catalog.filter (fun m => genericFallbackNames.contains m.name)
      (ranked2.take 3, (ranked2.drop 3).take 3)
    else (selected, optional)
  if pair.1.isEmpty then (catalog.take 3, (catalog.drop 3).take 3)
  else pair

/-- `_estimate_savings`. -/
def estimate_savings (payload : BusinessInput) (module_count : ℕ) : ℚ :=
  let base_ratio : ℚ := 15/100 + module_count * (1/10)
  let ratio := min base_ratio (6/10)
  let ratio := ratio * automation_scope_factor payload
  let weekly_hours :=
    if payload.manual_hours_per_week ≠ 0 then payload.manual_hours_per_week
    else (payload.manual_days_per_week.getD 0) * ANALYSIS_HOURS_PER_DAY
  let weekly_saved := weekly_hours * ratio
  weekly_saved * (433/100)

/-- `_build_roadmap` (called from `run_analysis` with `implementation_eta=None`,
so the ETA-shortening branch never fires there; it is still modelled). -/
def build_roadmap (modules : List AutomationModule)
    (implementation_eta : Option String) : List RoadmapPhase :=
  let build_weeks := (modules.map (fun m => m.estimated_weeks)).sum
  let implementation_weeks := max 2 (min 6 ((build_weeks + 1) / 2))
  let diagnostic_label := "1 semana"
  let escala_label := "1 semana"
  let implementation_label := implementation_eta
  let (diagnostic_label, implementation_weeks) :=
    match implementation_eta with
    | some eta =>
        let e := eta.toLower
        if strContains e "hora" || strContains e "dia" then ("1-2 dias", 1)
        else (diagnostic_label, implementation_weeks)
    | none => (diagnostic_label, implementation_weeks)
  [ { name := "Diagnostico", focus := "Diagnostico y mapeo de procesos"
    , duration_weeks := 1, duration_label := some diagnostic_label
    , deliverable := "Mapa de flujo y lista priorizada" }
  , { name := "Implementacion", focus := "Automatizaciones modulares y pruebas"
    , duration_weeks := implementation_weeks, duration_label := implementation_label
    , deliverable := "Flujos en produccion con control de calidad" }
  , { name := "Escala", focus := "Optimizacion de prompts, monitoreo y mejoras"
    , duration_weeks := 1, duration_label := some escala_label
    , deliverable := "Tablero de indicadores y plan de mejora continua" } ]

/-! ## Diagnosis orchestrator (`app/core/llm.py`) -/

/-- JSON values, as produced by `json.loads` inside `_extract_json`. -/
inductive JValue where
  | null
  | str (s : String)
  | num (q : ℚ)
  | bool (b : Bool)
  | arr (items : List JValue)
  | obj (fields : List (String × JValue))

/-- A parsed JSON object (`_extract_json` only ever yields objects, since the
extracted slice starts with a brace). -/
abbrev JObj := List (String × JValue)

/-- Python `dict.get` (returning `None` when the key is absent). -/
def pyGet (o : JObj) (k : String) : Option JValue :=
  (o.find? (fun p => p.1 = k)).map (fun p => p.2)

/-- Python truthiness of a JSON value. -/
def pyTruthy : JValue → Bool
  | .null => false
  | .str s => s ≠ ""
  | .num q => q ≠ 0
  | .bool b => b
  | .arr l => !l.isEmpty
  | .obj l => !l.isEmpty

/-- Python `str()` on a JSON value.  The rendering of non-integer numbers and
containers is approximate (no theorem below depends on it: rendered container
or number text is only ever filtered against catalog-name sets or emptiness). -/
def pyStr : JValue → String
  | .null => "None"
  | .str s => s
  | .bool true => "True"
  | .bool false => "False"
  | .num q => if q.den = 1 then toString q.num else toString q
  | .arr _ => "[...]"
  | .obj _ => "\x7b...\x7d"

/-- `str(parsed.get(k) or "")` used for the string fields of the merge. -/
def getOrEmptyStr (parsed : JObj) (k : String) : String :=
  match pyGet parsed k with
  | none => ""
  | some v => if pyTruthy v then pyStr v else ""

/-- `_industry_flags`: returns `(health, food, regulated)`. -/
def industry_flags (payload : BusinessInput) : Bool × Bool × Bool :=
  let text := (payload.industry ++ " " ++ payload.business_focus).toLower
  let health := ["salud", "medico", "clinica", "consultorio", "dentista"].any
    (fun key => strContains text key)
  let food := ["restaurante", "alimentos", "cocina", "chef", "comida"].any
    (fun key => strContains text key)
  (health, food, health || food)

/-- `_local_notes`. -/
def local_notes (payload : BusinessInput) (friction_points : List String) : String :=
  let friction_summary := pyOr (String.intercalate ", " friction_points) "operacion actual"
  let team_target := match payload.team_size_target with
    | some n => if n ≠ 0 then "El equipo objetivo es " ++ toString n ++ "." else ""
    | none => ""
  let focus := (pyOr payload.bottlenecks (pyOr payload.processes "operaciones")).trim
  let focus_short := if focus.length > 140 then focus.take 140 ++ "..." else focus
  let hours := payload.manual_hours_per_week
  let jornadas_mes : ℚ := if hours ≠ 0 then (hours * (433/100)) / 8 else 0
  let hours_note := if jornadas_mes ≠ 0 then
      "Hoy se regalan aprox. " ++ fmt1 jornadas_mes
        ++ " dias de sueldo al mes en tareas manuales."
    else ""
  ("La empresa opera en " ++ payload.industry ++ " (" ++ payload.business_focus ++ "). "
    ++ hours_note ++ " "
    ++ "El mayor bloqueo esta en: " ++ friction_summary ++ ". "
    ++ "Prioridad inmediata: atacar " ++ focus_short ++ ". "
    ++ team_target).trim

/-- The per-module one-line reasons table of `_local_insights`
(`reasons.get(name, default)`). -/
def moduleReason (name : String) : String :=
  if name = "Bot de ventas para WhatsApp" then
    "captura pedidos y prospectos en WhatsApp, reduce tiempos de respuesta y agenda seguimiento"
  else if name = "Chatbot de atencion al cliente" then
    "responde dudas frecuentes y libera carga al equipo en soporte"
  else if name = "Conciliacion automatica (banco vs ventas)" then
    "detecta diferencias entre banco, ventas y hojas para evitar fugas, fraudes y retrabajo"
  else if name = "Facturacion inteligente" then
    "genera y envia facturas automaticamente para evitar retrasos"
  else if name = "Sincronizacion Shopify-ERP" then
    "actualiza inventario y pedidos en tiempo real para evitar stock desactualizado"
  else if name = "Enriquecimiento y limpieza de CRM" then
    "ordena y limpia leads para que ventas enfoque esfuerzo en prospectos reales"
  else if name = "Reportes y dashboards operativos" then
    "da visibilidad diaria de ventas, inventario y cumplimiento"
  else if name = "Eficiencia administrativa (archivos y carpetas)" then
    "automatiza carpetas y archivos para que nunca se pierdan documentos y todo quede ordenado 24/7"
  else if name = "Generador de documentos inteligente" then
    "genera contratos/cotizaciones/facturas en PDF sin errores, sin copiar y pegar"
  else "automatiza una tarea repetitiva clave de tu operacion"

/-- The five narrative fields computed by `_local_insights`. -/
structure LocalInsights where
  summary : String
  opportunities : List String
  limitations : List String
  data_needed : List String
  extra_options : List String
  deriving DecidableEq

/-- `_local_insights`. -/
def local_insights (payload : BusinessInput) (friction_points : List String)
    (recommended optional : List String) : LocalInsights :=
  let summary := local_notes payload friction_points
  let text := (payload.processes ++ " " ++ payload.bottlenecks ++ " "
    ++ payload.systems).toLower
  let opportunities := (recommended.take 4).map
    (fun name => name ++ ": " ++ moduleReason name ++ ".")
  let opportunities := if opportunities.isEmpty then
      ["Priorizar tareas administrativas repetitivas para ahorrar tiempo."]
    else opportunities
  let flags := industry_flags payload
  let limitations :=
    ["Se requiere validacion humana antes de mover dinero, datos sensibles o decisiones finales."]
    ++ (if flags.2.2 then
        ["En rubros regulados, la automatizacion se limita a procesos administrativos, no al servicio humano."]
      else [])
    ++ (if payload.team_focus_same = some false then
        ["Equipo mixto: priorizar procesos transversales primero."]
      else [])
  let data_needed :=
    ["Accesos a sistemas: " ++ payload.systems ++ ".",
     "Volumen mensual de operaciones (ventas, tickets, pedidos).",
     "Responsable interno para validar procesos y cambios."]
    ++ (if strContains text "inventario" then
        ["Catalogo de productos e inventario actualizado."] else [])
    ++ (if strContains text "factura" || strContains text "facturacion" then
        ["Acceso al sistema de facturacion o CFDI."] else [])
    ++ (if strContains text "whatsapp" then
        ["Linea y API de WhatsApp Business (o proveedor actual)."] else [])
    ++ (if !optional.isEmpty then
        ["Confirmar si quieres activar opciones adicionales."] else [])
  { summary := summary, opportunities := opportunities, limitations := limitations
  , data_needed := data_needed, extra_options := optional }

/-- The result dictionary of `consultant_diagnosis` (the local fallback
dictionary carries no `complexity_level` key; `dict.get` on it yields `None`,
modelled as the `none` default of the field). -/
structure DiagnosisResult where
  primary_bottleneck : String
  pain_points : List String
  recommended_modules : List String
  optional_modules : List String
  summary : String
  opportunities : List String
  limitations : List String
  data_needed : List String
  extra_options : List String
  complexity_level : Option String := none
  deriving DecidableEq

/-- The `fallback_result` dictionary built inside `consultant_diagnosis`. -/
def fallback_result (payload : BusinessInput) (friction_points_guess : List String)
    (recommended_guess optional_guess : List String) : DiagnosisResult :=
  let fallback := local_insights payload friction_points_guess recommended_guess optional_guess
  let b := payload.bottlenecks.trim.take 140
  { primary_bottleneck :=
      if b = "" then friction_points_guess.headD "" else b
  , pain_points := if friction_points_guess.isEmpty then
      ["Hay tiempos muertos y poca visibilidad: hoy no sabes que pasa en tiempo real."]
    else friction_points_guess
  , recommended_modules := recommended_guess
  , optional_modules := optional_guess
  , summary := fallback.summary
  , opportunities := fallback.opportunities
  , limitations := fallback.limitations
  , data_needed := fallback.data_needed
  , extra_options := fallback.extra_options
  , complexity_level := none }

/-- `_list` helper of the merge: keeps a cleaned list only when the value is a
list, otherwise the default. -/
def jList (parsed : JObj) (k : String) (default : List String) : List String :=
  match pyGet parsed k with
  | some (.arr l) => (l.map (fun v => (pyStr v).trim)).filter (fun s => s ≠ "")
  | _ => default

/-- The merge step of `consultant_diagnosis` (lines 307-363 of `llm.py`),
applied to a parsed model response.  A truthy non-object
`complexity_assessment` value makes the Python code call `.get` on a
non-dict, raising `AttributeError`; that uncaught exception is the
`Except.error` case. -/
def mergeDiagnosis (moduleSet : List String) (fb : DiagnosisResult)
    (recommended_guess : List String) (parsed : JObj) :
    Except String DiagnosisResult :=
  let primary0 := (getOrEmptyStr parsed "primary_bottleneck").trim
  let primary := if primary0 = "" then fb.primary_bottleneck else primary0
  let pain : List JValue := match pyGet parsed "pain_points" with
    | some (.arr l) => l
    | _ => fb.pain_points.map JValue.str
  let pain_points := (((pain.map (fun v => (pyStr v).trim)).filter
    (fun s => s ≠ "")).take 6)
  let pain_points := if pain_points.isEmpty then fb.pain_points else pain_points
  let rec_ : List JValue := match pyGet parsed "recommended_modules" with
    | some (.arr l) => l
    | _ => fb.recommended_modules.map JValue.str
  let rec_names := ((rec_.map (fun v => (pyStr v).trim)).filter
    (fun n => moduleSet.contains n)).take 5
  let rec_names := if rec_names.isEmpty then
      (let g := (recommended_guess.filter (fun n => moduleSet.contains n)).take 5
       if g.isEmpty then fb.recommended_modules else g)
    else rec_names
  let opt : List JValue := match pyGet parsed "optional_modules" with
    | some (.arr l) => l
    | _ => fb.optional_modules.map JValue.str
  let opt_names := ((opt.map (fun v => (pyStr v).trim)).filter
    (fun n => moduleSet.contains n && !rec_names.contains n)).take 4
  let summary := pyOr (getOrEmptyStr parsed "summary").trim fb.summary
  let opportunities := (jList parsed "opportunities" fb.opportunities).take 6
  let limitations := (jList parsed "limitations" fb.limitations).take 3
  let data_needed := (jList parsed "data_needed" fb.data_needed).take 6
  let extra_options := (jList parsed "extra_options" fb.extra_options).take 4
  let complexity_data : Except String JObj :=
    match pyGet parsed "complexity_assessment" with
    | none => .ok []
    | some v =>
        if pyTruthy v then
          match v with
          | .obj o => .ok o
          | _ => .error "AttributeError: object has no attribute get"
        else .ok []
  match complexity_data with
  | .error e => .error e
  | .ok cd =>
      let levelRaw := (match pyGet cd "level" with
        | none => ""
        | some v => pyStr v).toLower.trim
      let complexity_level :=
        if levelRaw = "low" || levelRaw = "medium" || levelRaw = "high" then
          some levelRaw
        else none
      .ok { primary_bottleneck := primary
          , pain_points := pain_points
          , recommended_modules := rec_names
          , optional_modules := opt_names
          , summary := summary
          , opportunities := opportunities
          , limitations := limitations
          , data_needed := data_needed
          , extra_options := extra_options
          , complexity_level := complexity_level }

/-- Catalog line passed to `consultant_diagnosis` as `available_modules`
(only the `name` field is consumed by the merge; the rest feeds the prompt). -/
structure ModuleInfo where
  name : String
  description : String
  integrations : List String
  estimated_weeks : ℕ
  impact : ℕ
  deriving DecidableEq

/-- The `module_set` of `consultant_diagnosis`: non-empty stripped names of
the available modules. -/
def moduleSetOf (available_modules : List ModuleInfo) : List String :=
  (((available_modules.filter (fun i => i.name ≠ "")).map
    (fun i => i.name.trim)).filter (fun n => n ≠ ""))

/-- `consultant_diagnosis`.  `api_key_env` is the raw `GEMINI_API_KEY`
environment value; `reply` models the network boundary: `none` = the model
call produced no text (missing key, transport error, HTTP error, or empty
response), `some none` = text with no extractable JSON, `some (some o)` =
extracted JSON object `o`.  The prompt string and the `roi_context` numbers
it embeds do not influence the returned dictionary and are not modelled. -/
def consultant_diagnosis (api_key_env : String) (payload : BusinessInput)
    (friction_points_guess : List String) (available_modules : List ModuleInfo)
    (recommended_guess optional_guess : List String)
    (reply : Option (Option JObj)) : Except String DiagnosisResult :=
  let api_key := api_key_env.trim
  let fb := fallback_result payload friction_points_guess recommended_guess optional_guess
  if api_key = "" ∨ (moduleSetOf available_modules).isEmpty = true then .ok fb
  else
    match reply with
    | none => .ok fb
    | some parsedOpt =>
        mergeDiagnosis (moduleSetOf available_modules) fb recommended_guess (parsedOpt.getD [])

/-! ## End-to-end orchestrator (`run_analysis` in `app/core/analysis.py`) -/

/-- Python `.title()` restricted to the single lowercase words it receives
here (`"low" | "medium" | "high"`). -/
def pyTitle (s : String) : String :=
  match s.data with
  | [] => ""
  | c :: rest => String.mk (c.toUpper :: rest.map Char.toLower)

/-- The `available_modules` catalog dictionaries built inside `run_analysis`
(constant: derived from the static catalog). -/
def availableModules : List ModuleInfo :=
  catalog.map (fun m =>
    ({ name := m.name, description := m.description, integrations := m.integrations
     , estimated_weeks := m.estimated_weeks, impact := m.impact } : ModuleInfo))

/-- The part of `run_analysis` that follows the `consultant_diagnosis` call
(lines 413-492 of `analysis.py`). -/
def run_analysis_body (payload : BusinessInput) (diagnosis : DiagnosisResult) :
    AnalysisOutput :=
  let modules_guess := (score_modules payload).1
  let optional_modules_guess := (score_modules payload).2
  let module_catalog := catalog
  let friction_points_guess := pick_friction_points payload
  let roi := roi_breakdown defaultLaborConfig payload.manual_hours_per_week
    (payload.bottlenecks ++ " " ++ payload.processes ++ " " ++ payload.systems)
    payload.selected_modules
  let heuristic_level := estimate_complexity_level payload.team_size
  let selected_for_pricing := if payload.selected_modules.isEmpty then
      modules_guess.map (fun m => m.name)
    else payload.selected_modules
  let tier_text := payload.bottlenecks ++ " " ++ payload.processes ++ " "
    ++ payload.systems ++ " " ++ payload.goals
  let final_level := match diagnosis.complexity_level with
    | some l => if l ≠ "" then l else heuristic_level
    | none => heuristic_level
  let tier_decision := decide_service_tier payload tier_text selected_for_pricing
    (some final_level)
  let base_setup := suggest_setup_price tier_decision selected_for_pricing
    payload.tooling_level payload.transaction_volume
  let loaded_hourly_cost := roi.loaded_daily_cost_mxn / ANALYSIS_HOURS_PER_DAY
  let estimated_hours_saved_per_month := estimate_savings payload modules_guess.length
  let estimated_hours_saved_per_year := estimated_hours_saved_per_month * 12
  let roi_annual_formula := estimated_hours_saved_per_year * loaded_hourly_cost
  let clamp := enforce_irresistible_roi (base_setup : ℚ) roi_annual_formula
  let setup := clamp.1
  let roi_adjusted_to_3x := clamp.2.1
  let payback := (setup : ℚ) / max roi.total_mxn_per_month 1
  let roi_multiple := roi_annual_formula / max (setup : ℚ) 1
  let roi_annual_net := roi_annual_formula - setup
  let pricing : PricingQuote :=
    { setup_fee_mxn := setup
    , monthly_retainer_mxn := 0
    , implementation_tier := some (pyTitle final_level)
    , implementation_eta := none
    , service_tier := some tier_decision.tier
    , service_tier_reason := some tier_decision.reason
    , suggested_range_min_mxn := some tier_decision.min_price_mxn
    , suggested_range_max_mxn := some tier_decision.max_price_mxn
    , roi_annual_formula_mxn := some (pyRound2 roi_annual_formula)
    , roi_annual_net_mxn := some (pyRound2 roi_annual_net)
    , roi_multiple := some (pyRound2 roi_multiple)
    , roi_adjusted_to_3x := roi_adjusted_to_3x }
  let friction_points := if diagnosis.pain_points.isEmpty then friction_points_guess
    else diagnosis.pain_points
  let recommended_names := if diagnosis.recommended_modules.isEmpty then
      modules_guess.map (fun m => m.name)
    else diagnosis.recommended_modules
  let optional_names := if diagnosis.optional_modules.isEmpty then
      optional_modules_guess.map (fun m => m.name)
    else diagnosis.optional_modules
  let modules := recommended_names.filterMap
    (fun name => module_catalog.find? (fun m => m.name = name))
  let modules := if modules.isEmpty then
      (if modules_guess.isEmpty then module_catalog.take 3 else modules_guess)
    else modules
  let optional_modules := optional_names.filterMap (fun name =>
    match module_catalog.find? (fun m => m.name = name) with
    | some m => if (modules.map (fun x => x.name)).contains name then none else some m
    | none => none)
  { friction_points := friction_points
    , recommended_modules := modules
    , optional_modules := optional_modules
    , opportunities := diagnosis.opportunities
    , limitations := diagnosis.limitations
    , data_needed := diagnosis.data_needed
    , primary_bottleneck := diagnosis.primary_bottleneck
    , roi_hours_saved_per_month := pyRound1 roi.manual_hours_per_month
    , roi_time_value_mxn_per_month := pyRound2 roi.time_value_mxn_per_month
    , roi_error_cost_mxn_per_month := pyRound2 roi.error_cost_mxn_per_month
    , roi_error_savings_mxn_per_month := pyRound2 roi.error_savings_mxn_per_month
    , roi_opportunity_mxn_per_month := pyRound2 roi.opportunity_cost_mxn_per_month
    , roi_total_with_opportunity_mxn_per_month :=
        pyRound2 roi.total_with_opportunity_mxn_per_month
    , roi_total_with_opportunity_mxn_per_year :=
        pyRound2 roi.total_with_opportunity_mxn_per_year
    , roi_loaded_daily_cost_mxn := pyRound2 roi.loaded_daily_cost_mxn
    , roi_loaded_monthly_cost_mxn := pyRound2 roi.loaded_monthly_cost_mxn
    , roi_rotation_cost_mxn_per_hire := pyRound2 roi.rotation_cost_mxn_per_hire
    , roi_fte_equivalent := pyRound2 roi.fte_equivalent
    , roi_mxn_saved_per_month := pyRound2 roi.total_mxn_per_month
    , payback_months := pyRound2 payback
    , roadmap := build_roadmap modules none
    , pricing := pricing
    , notes := diagnosis.summary }

/-- `run_analysis`.  The ROI configuration is the default one (no environment
overrides); the external model boundary is the `reply` input as in
`consultant_diagnosis`.  An `AttributeError` escaping the merge propagates
(there is no handler in `run_analysis`), hence the `Except.map`.  The seed
tier/price/payback computed before the call only feed the prompt's
`roi_context` and are not modelled. -/
def run_analysis (gemini_api_key : String) (payload : BusinessInput)
    (reply : Option (Option JObj)) : Except String AnalysisOutput :=
  (consultant_diagnosis gemini_api_key payload (pick_friction_points payload)
    availableModules ((score_modules payload).1.map (fun m => m.name))
    ((score_modules payload).2.map (fun m => m.name)) reply).map
    (run_analysis_body payload)

/-! ## Helper lemmas -/

theorem pyRound_intCast (n : ℤ) : pyRound (n : ℚ) = n := by
  simp [pyRound]

theorem pyRound_le (q : ℚ) : (pyRound q : ℚ) ≤ q + 1/2 := by
  simp only [pyRound]
  have hfl : ((⌊q⌋ : ℤ) : ℚ) ≤ q := Int.floor_le q
  have hlt : q < (⌊q⌋ : ℚ) + 1 := Int.lt_floor_add_one q
  split_ifs with h1 h2 h3 <;> push_cast <;> linarith

theorem le_pyRound (q : ℚ) : q - 1/2 ≤ (pyRound q : ℚ) := by
  simp only [pyRound]
  have hfl : ((⌊q⌋ : ℤ) : ℚ) ≤ q := Int.floor_le q
  have hlt : q < (⌊q⌋ : ℚ) + 1 := Int.lt_floor_add_one q
  split_ifs with h1 h2 h3 <;> push_cast <;> linarith

theorem pyRound_div_mul {d z : ℤ} (hd : (0 : ℤ) < d) (h : d ∣ z) :
    pyRound ((z : ℚ) / (d : ℚ)) * d = z := by
  obtain ⟨k, rfl⟩ := h
  have hd0 : (d : ℚ) ≠ 0 := by exact_mod_cast hd.ne'
  have : ((d * k : ℤ) : ℚ) / (d : ℚ) = (k : ℚ) := by
    push_cast
    field_simp
  rw [this, pyRound_intCast, mul_comm]

theorem pyRound2_intCast (n : ℤ) : pyRound2 (n : ℚ) = n := by
  have : ((n : ℚ) * 100) = ((n * 100 : ℤ) : ℚ) := by push_cast; ring
  rw [pyRound2, this, pyRound_intCast]
  push_cast
  field_simp

theorem dvd_max {d a b : ℤ} (ha : d ∣ a) (hb : d ∣ b) : d ∣ max a b := by
  rcases max_choice a b with h | h <;> rw [h] <;> assumption

theorem dvd_min {d a b : ℤ} (ha : d ∣ a) (hb : d ∣ b) : d ∣ min a b := by
  rcases min_choice a b with h | h <;> rw [h] <;> assumption

/-- The final rounding/flooring step of `enforce_irresistible_roi` always
yields a multiple of 500 that is at least 1000. -/
theorem enforce_irresistible_roi_shape (price savings : ℚ) :
    (500 : ℤ) ∣ (enforce_irresistible_roi price savings).1 ∧
    1000 ≤ (enforce_irresistible_roi price savings).1 := by
  simp only [enforce_irresistible_roi]
  split_ifs <;> dsimp only <;>
    exact ⟨dvd_max (by norm_num) (dvd_mul_left 500 _), le_max_left _ _⟩

/-! ## C2: the ROI guard -/

/-- The amended ROI-guard contract: the guard only fires when the savings
ceiling `annual_savings / 3` is strictly positive; when it fires the final
price is bounded by `max 1000 (annual_savings / 3 + 250)` (500-rounding can
add up to 250, and the result is floored at 1000); when it does not fire the
price is only rounded to the nearest 500 and floored at 1000; and the final
price is always a multiple of 500 that is at least 1000. -/
def RoiGuardSpec (price savings : ℚ) : Prop :=
  (500 : ℤ) ∣ (enforce_irresistible_roi price savings).1 ∧
  1000 ≤ (enforce_irresistible_roi price savings).1 ∧
  (enforce_irresistible_roi price savings).2.2 = savings / 3 ∧
  (0 < savings / 3 → savings / 3 < max 1 price →
    (enforce_irresistible_roi price savings).2.1 = true ∧
    ((enforce_irresistible_roi price savings).1 : ℚ) ≤ max 1000 (savings / 3 + 250)) ∧
  (¬(0 < savings / 3 ∧ savings / 3 < max 1 price) →
    (enforce_irresistible_roi price savings).2.1 = false ∧
    (enforce_irresistible_roi price savings).1 = max 1000 (pyRound (max 1 price / 500) * 500))

/-- C2 (counterexample): as stated the claim fails.  At
`(price, savings) = (5000, 0)` the price exceeds `savings/3 = 0` yet
`adjusted` is `false` (the guard condition requires `savings/3 > 0`); at
`(5000, 6900)` the guard fires but the final price `2500` exceeds
`6900/3 + 1 = 2301` (rounding to the nearest 500 adds up to 250); at
`(5000, 300)` the final price `1000` exceeds `300/3 + 1 = 101` (the
1000 floor). -/
theorem roi_guard_claim_counterexample :
    ((0 : ℚ)/3 < 5000 ∧ (enforce_irresistible_roi 5000 0).2.1 = false) ∧
    ((6900 : ℚ)/3 < 5000 ∧ (enforce_irresistible_roi 5000 6900).2.1 = true ∧
      (enforce_irresistible_roi 5000 6900).1 = 2500 ∧
      ¬(((enforce_irresistible_roi 5000 6900).1 : ℚ) ≤ 6900/3 + 1)) ∧
    ((300 : ℚ)/3 < 5000 ∧ (enforce_irresistible_roi 5000 300).1 = 1000 ∧
      ¬(((enforce_irresistible_roi 5000 300).1 : ℚ) ≤ 300/3 + 1)) := by
  with_unfolding_all decide

/-- C2 (amended): for non-negative inputs `enforce_irresistible_roi` returns a
multiple of 500 floored at 1000, records the unclamped ceiling `savings / 3`,
adjusts exactly when `0 < savings / 3 < max 1 price` (so never when
`annual_savings = 0`), bounds the adjusted price by
`max 1000 (savings / 3 + 250)`, and otherwise only rounds the price to the
nearest 500 and floors it at 1000. -/
theorem roi_guard_amended (price savings : ℚ) (hp : 0 ≤ price) (hs : 0 ≤ savings) :
    RoiGuardSpec price savings := by
  have hms : max 0 savings = savings := max_eq_right hs
  unfold RoiGuardSpec
  refine ⟨(enforce_irresistible_roi_shape price savings).1,
    (enforce_irresistible_roi_shape price savings).2, ?_, ?_, ?_⟩
  · simp only [enforce_irresistible_roi, hms]
  · intro h1 h2
    constructor
    · simp only [enforce_irresistible_roi, hms]
      rw [if_pos ⟨h1, h2⟩]
    · simp only [enforce_irresistible_roi, hms]
      rw [if_pos ⟨h1, h2⟩]
      dsimp only
      push_cast
      refine max_le (le_max_left _ _) ?_
      rcases le_or_lt (savings / 3) 1000 with hle | hlt
      · have hmax : max (1000 : ℚ) (savings / 3) = 1000 := max_eq_left hle
        rw [hmax]
        have h2eq : ((2 : ℤ) : ℚ) = (1000 : ℚ) / 500 := by norm_num
        rw [← h2eq, pyRound_intCast]
        exact le_trans (by norm_num) (le_max_left _ _)
      · have hmax : max (1000 : ℚ) (savings / 3) = savings / 3 := max_eq_right hlt.le
        rw [hmax]
        have hb := pyRound_le (savings / 3 / 500)
        refine le_trans ?_ (le_max_right _ _)
        nlinarith [hb]
  · intro hn
    simp only [enforce_irresistible_roi, hms]
    rw [if_neg ?hc]
    case hc =>
      intro hcontra
      exact hn ⟨hcontra.1, hcontra.2⟩
    exact ⟨rfl, rfl⟩

/-- C2 witness: the amended contract at the concrete pair `(4000, 600)`. -/
theorem roi_guard_amended_witness :
    (0 : ℚ) ≤ 4000 ∧ (0 : ℚ) ≤ 600 ∧ RoiGuardSpec 4000 600 :=
  ⟨by norm_num, by norm_num, roi_guard_amended 4000 600 (by norm_num) (by norm_num)⟩

/-! ## C7: ROI-breakdown equations -/

/-- The amended ROI-breakdown contract under the default configuration: the
stated equations hold, and the error-risk factor is chosen with the
selected-priority checks taking precedence over the keyword checks
(admin selection → 0.35, else finance/inventory selection → 0.25, else admin
keywords → 0.35, else finance keywords → 0.25, else 0.15). -/
def RoiBreakdownSpec (h : ℚ) (text : String) (sel : List String) : Prop :=
  let r := roi_breakdown defaultLaborConfig h text sel
  r.loaded_monthly_cost_mxn = 10000 * (1 + 3/10) ∧
  r.manual_hours_per_month = h * (433/100) ∧
  r.time_value_mxn_per_month
    = h * (433/100) * (r.loaded_monthly_cost_mxn / 22 / 8) ∧
  r.error_risk_factor
    = (if adminSelected sel then 35/100
       else if financeSelected sel then 25/100
       else if adminTextSignal text then 35/100
       else if financeTextSignal text then 25/100
       else 15/100) ∧
  r.error_cost_mxn_per_month = r.time_value_mxn_per_month * r.error_risk_factor ∧
  r.error_savings_mxn_per_month = r.error_cost_mxn_per_month * (6/10) ∧
  r.total_mxn_per_month = r.time_value_mxn_per_month + r.error_savings_mxn_per_month ∧
  r.total_with_opportunity_mxn_per_month
    = r.total_mxn_per_month + r.opportunity_cost_mxn_per_month ∧
  r.total_mxn_per_year = 12 * r.total_mxn_per_month ∧
  r.total_with_opportunity_mxn_per_year = 12 * r.total_with_opportunity_mxn_per_month

/-- C7 (counterexample): the claim reads the factor rule as "administrative
keywords → 0.35" unconditionally, but a finance/reconciliation priority
selection takes precedence in the code: with pain text `"papeleo"` (an
administrative keyword) and the selected priority `conciliacion_automatica`
the factor is 0.25, not 0.35. -/
theorem roi_factor_claim_counterexample :
    adminTextSignal "papeleo" = true ∧
    (roi_breakdown defaultLaborConfig 10 "papeleo" ["conciliacion_automatica"]).error_risk_factor
      = 25/100 ∧
    ((25 : ℚ)/100) ≠ 35/100 := by
  with_unfolding_all decide

/-- C7 (amended): all ROI-breakdown equations of the claim hold for every
non-negative weekly-hours value, with the error-risk factor rule amended so
that priority selections take precedence over keyword matches. -/
theorem roi_breakdown_equations (h : ℚ) (text : String) (sel : List String)
    (hh : 0 ≤ h) : RoiBreakdownSpec h text sel := by
  have hmax : max (0 : ℚ) h = h := max_eq_right hh
  unfold RoiBreakdownSpec roi_breakdown error_risk_factor
  simp only [defaultLaborConfig, ERROR_REDUCTION_FACTOR, hmax]
  norm_num
  constructor <;> ring

/-- C7 witness: the amended ROI equations at hours = 10, pain text
`"papeleo"`, no selected priorities. -/
theorem roi_breakdown_equations_witness :
    (0 : ℚ) ≤ 10 ∧ RoiBreakdownSpec 10 "papeleo" [] :=
  ⟨by norm_num, roi_breakdown_equations 10 "papeleo" [] (by norm_num)⟩

/-! ## C8: the ELITE rule fires first -/

/-- The ELITE decision literal returned by the first branch of
`decide_service_tier`. -/
def eliteDecision : ServiceTierDecision :=
  { tier := "ELITE", min_price_mxn := 60000, max_price_mxn := 120000
  , reason := "Operacion de alto volumen o integraciones avanzadas (ERP/IA compleja)." }

/-- C8: for every intake, pain text, selected-module list and optional
complexity level, if the pain text contains one of the six advanced-scale
keywords, or the tooling is `erp_complejo`, or the (explicit or
team-size-derived) employee band is `21-100+`, or the transaction volume is
`alto`, or the complexity level is `high`, then `decide_service_tier` returns
the ELITE decision with band (60000, 120000) — this first branch wins before
any MICRO/LITE/GROWTH condition is examined. -/
theorem decide_service_tier_elite_first (payload : BusinessInput)
    (pain_text : String) (selected_modules : List String)
    (complexity_level : Option String)
    (h : (∃ k ∈ ["memoria", "scraping", "masivo", "trading", "erp", "multi-sucursal"],
            strContains pain_text.toLower k = true)
      ∨ toolingOf payload = "erp_complejo"
      ∨ bandOf payload = "21-100+"
      ∨ volumeOf payload = "alto"
      ∨ complexity_level = some "high") :
    decide_service_tier payload pain_text selected_modules complexity_level
      = eliteDecision := by
  have hc : (eliteSignals payload pain_text.toLower
      || bandOf payload == "21-100+" || volumeOf payload == "alto"
      || complexity_level == some "high") = true := by
    rcases h with ⟨k, hk, hck⟩ | ht | hb | hv | hl
    · have hk7 : k ∈ eliteKeywords := by
        simp only [eliteKeywords]
        fin_cases hk <;> simp
      have : eliteKeywords.any (fun key => strContains pain_text.toLower key) = true :=
        List.any_eq_true.mpr ⟨k, hk7, hck⟩
      simp [eliteSignals, this]
    · simp [eliteSignals, ht]
    · simp [hb]
    · simp [hv]
    · simp [hl]
  simp only [decide_service_tier]
  rw [hc]
  rfl

/-- C8 witness: a 3-person intake whose pain text mentions `erp` is classified
ELITE. -/
theorem decide_service_tier_elite_first_witness :
    ((∃ k ∈ ["memoria", "scraping", "masivo", "trading", "erp", "multi-sucursal"],
        strContains ("usamos un erp" : String).toLower k = true)
      ∨ toolingOf { company_name := "qq", industry := "qq", business_focus := "qqq"
                  , team_size := 3, bottlenecks := "zzzzz" } = "erp_complejo"
      ∨ bandOf { company_name := "qq", industry := "qq", business_focus := "qqq"
               , team_size := 3, bottlenecks := "zzzzz" } = "21-100+"
      ∨ volumeOf { company_name := "qq", industry := "qq", business_focus := "qqq"
                 , team_size := 3, bottlenecks := "zzzzz" } = "alto"
      ∨ (none : Option String) = some "high") ∧
    decide_service_tier
      { company_name := "qq", industry := "qq", business_focus := "qqq"
      , team_size := 3, bottlenecks := "zzzzz" }
      "usamos un erp" [] none = eliteDecision :=
  ⟨Or.inl ⟨"erp", by with_unfolding_all decide, by with_unfolding_all decide⟩,
   decide_service_tier_elite_first _ _ _ _
     (Or.inl ⟨"erp", by with_unfolding_all decide, by with_unfolding_all decide⟩)⟩

/-! ## C4: price bands -/

theorem bounded_dvd_le {lo hi raw d : ℤ} (hlo : d ∣ lo) (hhi : d ∣ hi)
    (hraw : d ∣ raw) (hlohi : lo ≤ hi) :
    d ∣ min hi (max lo raw) ∧ lo ≤ min hi (max lo raw) ∧ min hi (max lo raw) ≤ hi :=
  ⟨dvd_min hhi (dvd_max hlo hraw),
   le_min hlohi (le_max_left _ _), min_le_left _ _⟩

theorem pyRound_div500 {z : ℤ} (h : (500 : ℤ) ∣ z) :
    pyRound ((z : ℚ) / 500) * 500 = z := by
  have := @pyRound_div_mul 500 z (by norm_num) h
  convert this using 3
  all_goals norm_num

theorem pyRound_div100 {z : ℤ} (h : (100 : ℤ) ∣ z) :
    pyRound ((z : ℚ) / 100) * 100 = z := by
  have := @pyRound_div_mul 100 z (by norm_num) h
  convert this using 3
  all_goals norm_num

/-- The clamp-then-round computation shared by both branches of
`suggest_setup_price`, for a 500-aligned band. -/
theorem suggest_bound_core500 {lo hi extra : ℤ} (hlo : (500 : ℤ) ∣ lo)
    (hhi : (500 : ℤ) ∣ hi) (hextra : (500 : ℤ) ∣ extra) (hle : lo ≤ hi) :
    lo ≤ pyRound (((min hi (max lo (lo + extra)) : ℤ) : ℚ) / 500) * 500 ∧
    pyRound (((min hi (max lo (lo + extra)) : ℤ) : ℚ) / 500) * 500 ≤ hi ∧
    (500 : ℤ) ∣ pyRound (((min hi (max lo (lo + extra)) : ℤ) : ℚ) / 500) * 500 := by
  have hb := bounded_dvd_le hlo hhi (dvd_add hlo hextra) hle
  rw [pyRound_div500 hb.1]
  exact ⟨hb.2.1, hb.2.2, hb.1⟩

/-- The MICRO-branch analogue for a 100-aligned band. -/
theorem suggest_bound_core100 {lo hi extra : ℤ} (hlo : (100 : ℤ) ∣ lo)
    (hhi : (100 : ℤ) ∣ hi) (hextra : (100 : ℤ) ∣ extra) (hle : lo ≤ hi) :
    lo ≤ pyRound (((min hi (max lo (lo + extra)) : ℤ) : ℚ) / 100) * 100 ∧
    pyRound (((min hi (max lo (lo + extra)) : ℤ) : ℚ) / 100) * 100 ≤ hi ∧
    (100 : ℤ) ∣ pyRound (((min hi (max lo (lo + extra)) : ℤ) : ℚ) / 100) * 100 := by
  have hb := bounded_dvd_le hlo hhi (dvd_add hlo hextra) hle
  rw [pyRound_div100 hb.1]
  exact ⟨hb.2.1, hb.2.2, hb.1⟩

/-- Every decision produced by `decide_service_tier` is either the MICRO band
(2000, 3000) or a non-MICRO tier with a 500-aligned nonempty band. -/
theorem decide_service_tier_shape (payload : BusinessInput) (pain_text : String)
    (selected_modules : List String) (complexity_level : Option String) :
    ((decide_service_tier payload pain_text selected_modules complexity_level).tier = "MICRO"
      ∧ (decide_service_tier payload pain_text selected_modules complexity_level).min_price_mxn = 2000
      ∧ (decide_service_tier payload pain_text selected_modules complexity_level).max_price_mxn = 3000)
    ∨ ((decide_service_tier payload pain_text selected_modules complexity_level).tier ≠ "MICRO"
      ∧ (500 : ℤ) ∣ (decide_service_tier payload pain_text selected_modules complexity_level).min_price_mxn
      ∧ (500 : ℤ) ∣ (decide_service_tier payload pain_text selected_modules complexity_level).max_price_mxn
      ∧ (decide_service_tier payload pain_text selected_modules complexity_level).min_price_mxn
          ≤ (decide_service_tier payload pain_text selected_modules complexity_level).max_price_mxn) := by
  simp only [decide_service_tier]
  split_ifs <;>
    first
      | exact Or.inl ⟨rfl, rfl, rfl⟩
      | exact Or.inr ⟨by decide, by norm_num, by norm_num, by norm_num⟩

/-- The amended price-band contract: `suggest_setup_price` always returns an
integer inside the tier band, a multiple of 100 for MICRO and of 500
otherwise; applying the ROI clamp to that price keeps it a multiple of 500
(hence of 100) and at least 1000, but may take it below the band minimum. -/
def PriceBandSpec (payload : BusinessInput) (pain_text : String)
    (sel : List String) (lvl : Option String) (sel2 : List String)
    (tool vol : Option String) (savings : ℚ) : Prop :=
  let td := decide_service_tier payload pain_text sel lvl
  let price := suggest_setup_price td sel2 tool vol
  td.min_price_mxn ≤ price ∧ price ≤ td.max_price_mxn ∧
  (td.tier = "MICRO" → (100 : ℤ) ∣ price) ∧
  (td.tier ≠ "MICRO" → (500 : ℤ) ∣ price) ∧
  (500 : ℤ) ∣ (enforce_irresistible_roi (price : ℚ) savings).1 ∧
  1000 ≤ (enforce_irresistible_roi (price : ℚ) savings).1

/-- C4 (counterexample): the claim also asserts the program's price stays in
the band after the ROI clamp.  A 15-person intake with two selected modules
lands in GROWTH (band 25000-45000) and `suggest_setup_price` returns 32500,
inside the band; but clamping that price against annual savings of 3000
yields 1000, far below the band minimum. -/
theorem price_band_claim_counterexample :
    (decide_service_tier
      { company_name := "qq", industry := "qq", business_focus := "qqq"
      , team_size := 15, manual_hours_per_week := 1, bottlenecks := "zzzzz" }
      "zzzzz" ["a", "b"] (some "medium")).tier = "GROWTH" ∧
    (decide_service_tier
      { company_name := "qq", industry := "qq", business_focus := "qqq"
      , team_size := 15, manual_hours_per_week := 1, bottlenecks := "zzzzz" }
      "zzzzz" ["a", "b"] (some "medium")).min_price_mxn = 25000 ∧
    suggest_setup_price
      (decide_service_tier
        { company_name := "qq", industry := "qq", business_focus := "qqq"
        , team_size := 15, manual_hours_per_week := 1, bottlenecks := "zzzzz" }
        "zzzzz" ["a", "b"] (some "medium")) ["a", "b"] none none = 32500 ∧
    (enforce_irresistible_roi (32500 : ℚ) 3000).1 = 1000 ∧
    ¬(25000 ≤ (enforce_irresistible_roi (32500 : ℚ) 3000).1) := by
  with_unfolding_all decide

/-- C4 (amended): for every tier decision actually produced by
`decide_service_tier` and every module list, tooling label, volume label and
annual-savings figure, the suggested price is inside the band and aligned to
100 (MICRO) or 500 (other tiers); the subsequent ROI clamp keeps the price a
multiple of 500 and at least 1000 but does not preserve the band. -/
theorem suggest_setup_price_in_band (payload : BusinessInput) (pain_text : String)
    (sel : List String) (lvl : Option String) (sel2 : List String)
    (tool vol : Option String) (savings : ℚ) :
    PriceBandSpec payload pain_text sel lvl sel2 tool vol savings := by
  unfold PriceBandSpec
  rcases decide_service_tier_shape payload pain_text sel lvl with
    ⟨hm, hlo, hhi⟩ | ⟨hm, hlo, hhi, hle⟩
  · have hprice : (decide_service_tier payload pain_text sel lvl).min_price_mxn
        ≤ suggest_setup_price (decide_service_tier payload pain_text sel lvl) sel2 tool vol
        ∧ suggest_setup_price (decide_service_tier payload pain_text sel lvl) sel2 tool vol
        ≤ (decide_service_tier payload pain_text sel lvl).max_price_mxn
        ∧ (100 : ℤ) ∣ suggest_setup_price (decide_service_tier payload pain_text sel lvl) sel2 tool vol := by
      simp only [suggest_setup_price]
      rw [if_pos hm, hlo, hhi]
      exact suggest_bound_core100 (by norm_num) (by norm_num)
        ((by norm_num : (100 : ℤ) ∣ 500).mul_left _) (by norm_num)
    refine ⟨hprice.1, hprice.2.1, fun _ => hprice.2.2, fun hne => absurd hm hne,
      (enforce_irresistible_roi_shape _ _).1, (enforce_irresistible_roi_shape _ _).2⟩
  · have hprice : (decide_service_tier payload pain_text sel lvl).min_price_mxn
        ≤ suggest_setup_price (decide_service_tier payload pain_text sel lvl) sel2 tool vol
        ∧ suggest_setup_price (decide_service_tier payload pain_text sel lvl) sel2 tool vol
        ≤ (decide_service_tier payload pain_text sel lvl).max_price_mxn
        ∧ (500 : ℤ) ∣ suggest_setup_price (decide_service_tier payload pain_text sel lvl) sel2 tool vol := by
      simp only [suggest_setup_price]
      rw [if_neg hm]
      refine suggest_bound_core500 hlo hhi ?_ hle
      exact dvd_add (dvd_add ((by norm_num : (500 : ℤ) ∣ 1500).mul_left _)
        ((by norm_num : (500 : ℤ) ∣ 2000).mul_left _))
        ((by norm_num : (500 : ℤ) ∣ 2500).mul_left _)
    refine ⟨hprice.1, hprice.2.1, fun heq => absurd heq hm, fun _ => hprice.2.2,
      (enforce_irresistible_roi_shape _ _).1, (enforce_irresistible_roi_shape _ _).2⟩

/-! ## C9: the generic fallback of the scorer -/

/-- A selected-priority-free intake whose free text matches no catalog tag,
driving the scorer into its generic fallback. -/
def emptySignalInput : BusinessInput :=
  { company_name := "qq", industry := "qq", business_focus := "qqq"
  , team_size := 3, bottlenecks := "zzzzz" }

/-- Refinement comparison definition following the spec's words: the generic
fallback names taken **in the generic set's own priority order**, each
resolved against the catalog (the claim's reading).  The code instead keeps
catalog declaration order. -/
def specOrderedGenericFallback : List AutomationModule :=
  genericFallbackNames.filterMap (fun n => catalog.find? (fun m => m.name = n))

/-- C9 (counterexample): on an intake with an empty scored list the code
substitutes the generic fallback **in catalog declaration order**
(`Facturacion inteligente` before `Reportes y dashboards operativos`),
not in the generic set's own priority order as the claim states. -/
theorem generic_fallback_order_counterexample :
    scoredModules emptySignalInput = [] ∧
    (score_modules emptySignalInput).1.map (fun m => m.name)
      = ["Facturacion inteligente", "Reportes y dashboards operativos"] ∧
    (specOrderedGenericFallback.take 3).map (fun m => m.name)
      = ["Reportes y dashboards operativos", "Facturacion inteligente"] ∧
    (score_modules emptySignalInput).1 ≠ specOrderedGenericFallback.take 3 := by
  with_unfolding_all decide

/-- C9 (amended): whenever the scored-and-gated list is empty, the scorer
substitutes the generic fallback name set intersected with the catalog **in
catalog declaration order**, truncated to 3 recommended and 3 optional; the
first-3/next-3 catalog fallback applies only when that intersection is empty
(unreachable with the current catalog, whose intersection is non-empty). -/
theorem score_modules_generic_fallback (payload : BusinessInput)
    (h : scoredModules payload = []) :
    score_modules payload
      = ((catalog.filter (fun m => genericFallbackNames.contains m.name)).take 3,
         ((catalog.filter (fun m => genericFallbackNames.contains m.name)).drop 3).take 3) := by
  simp only [score_modules, rankedModules, h, sortDesc, List.map_nil]
  with_unfolding_all decide

/-- C9 witness: the amended fallback behavior at the concrete
signal-free intake. -/
theorem score_modules_generic_fallback_witness :
    scoredModules emptySignalInput = [] ∧
    score_modules emptySignalInput
      = ((catalog.filter (fun m => genericFallbackNames.contains m.name)).take 3,
         ((catalog.filter (fun m => genericFallbackNames.contains m.name)).drop 3).take 3) :=
  ⟨by with_unfolding_all decide,
   score_modules_generic_fallback emptySignalInput (by with_unfolding_all decide)⟩

/-! ## C3: explicitly selected priorities surface -/

theorem insertDesc_perm (x : ℕ × AutomationModule)
    (l : List (ℕ × AutomationModule)) : List.Perm (insertDesc x l) (x :: l) := by
  induction l with
  | nil => exact List.Perm.refl _
  | cons y ys ih =>
      simp only [insertDesc]
      split_ifs
      · exact List.Perm.refl _
      · exact (ih.cons y).trans (List.Perm.swap x y ys)

theorem sortDesc_perm (l : List (ℕ × AutomationModule)) :
    List.Perm (sortDesc l) l := by
  induction l with
  | nil => exact List.Perm.refl _
  | cons x xs ih => exact (insertDesc_perm x (sortDesc xs)).trans (ih.cons x)

theorem insertDesc_sorted {x : ℕ × AutomationModule}
    {l : List (ℕ × AutomationModule)}
    (hl : l.Pairwise (fun a b => b.1 ≤ a.1)) :
    (insertDesc x l).Pairwise (fun a b => b.1 ≤ a.1) := by
  induction l with
  | nil => simp [insertDesc]
  | cons y ys ih =>
      rcases List.pairwise_cons.mp hl with ⟨hy, hys⟩
      simp only [insertDesc]
      split_ifs with hxy
      · refine List.pairwise_cons.mpr ⟨?_, hl⟩
        intro z hz
        rcases List.mem_cons.mp hz with rfl | hz
        · exact hxy
        · exact le_trans (hy z hz) hxy
      · refine List.pairwise_cons.mpr ⟨?_, ih hys⟩
        intro z hz
        rcases List.mem_cons.mp ((insertDesc_perm x ys).mem_iff.mp hz) with rfl | hz
        · exact le_of_not_le hxy
        · exact hy z hz

theorem sortDesc_sorted (l : List (ℕ × AutomationModule)) :
    (sortDesc l).Pairwise (fun a b => b.1 ≤ a.1) := by
  induction l with
  | nil => simp [sortDesc]
  | cons x xs ih => exact insertDesc_sorted ih

/-- In a descending-sorted list, an element preceded (weakly) by at most `n`
elements with a score at least its own lies within the first `n` entries. -/
theorem sorted_take_mem {x : ℕ × AutomationModule} :
    ∀ {l : List (ℕ × AutomationModule)} {n : ℕ},
    l.Pairwise (fun a b => b.1 ≤ a.1) → x ∈ l →
    l.countP (fun y => x.1 ≤ y.1) ≤ n → x ∈ l.take n := by
  intro l
  induction l with
  | nil => intro n _ hx _; cases hx
  | cons y ys ih =>
      intro n hs hx hc
      rcases List.pairwise_cons.mp hs with ⟨hy, hys⟩
      have hxy : x.1 ≤ y.1 := by
        rcases List.mem_cons.mp hx with rfl | hx
        · exact le_refl _
        · exact hy x hx
      rw [List.countP_cons] at hc
      simp only [hxy, decide_True, if_pos] at hc
      cases n with
      | zero => omega
      | succ n =>
          rw [List.take_succ_cons]
          rcases List.mem_cons.mp hx with rfl | hx
          · exact List.mem_cons_self _ _
          · exact List.mem_cons_of_mem _ (ih hys hx (by omega))

theorem explicitlyRequested_eq_false {name : String}
    (h : ∀ key, (selectionMap key).contains name = false)
    (keys : List String) : explicitlyRequested keys name = false := by
  simp only [explicitlyRequested, List.any_eq_false]
  intro key _
  simpa using h key

/-- A module name that occurs in no `selection_map` expansion is never
explicitly requested, whatever priority keys are selected. -/
theorem selectionMap_contains_false {name : String}
    (h : (["Bot de ventas para WhatsApp", "Chatbot de atencion al cliente",
      "Sincronizacion Shopify-ERP", "Reportes y dashboards operativos",
      "Conciliacion automatica (banco vs ventas)",
      "Eficiencia administrativa (archivos y carpetas)",
      "Generador de documentos inteligente",
      "Facturacion inteligente"].contains name) = false) :
    ∀ key, (selectionMap key).contains name = false := by
  intro key
  simp only [selectionMap]
  split_ifs <;> simp_all <;> tauto

theorem moduleScore_le_of_unbonused (text : String) (keys : List String)
    (admin : Bool) (m : AutomationModule)
    (hreq : explicitlyRequested keys m.name = false)
    (h1 : (m.name == "Eficiencia administrativa (archivos y carpetas)") = false)
    (h2 : (m.name == "Generador de documentos inteligente") = false) :
    moduleScore text keys admin m ≤ m.tags.length := by
  simp only [moduleScore, hreq, h1, h2, Bool.and_false, if_false,
    Bool.false_eq_true, add_zero]
  exact List.length_filter_le _ _

/-- The five catalog modules that can carry a score bonus: all other catalog
entries have four tags, no expansion membership and no admin-bonus name, so
their score never reaches 5. -/
def strongNames : List String :=
  ["Bot de ventas para WhatsApp", "Chatbot de atencion al cliente",
   "Sincronizacion Shopify-ERP", "Facturacion inteligente",
   "Reportes y dashboards operativos"]

/-- Every catalog module is either one of the five bonus-capable modules or
scores at most 4 (its tag count), whatever the intake text and selections. -/
theorem catalog_weak_score_le (text : String) (keys : List String) (admin : Bool) :
    ∀ m ∈ catalog, strongNames.contains m.name = true
      ∨ moduleScore text keys admin m ≤ 4 := by
  intro m hm
  fin_cases hm <;>
    first
      | exact Or.inl (by with_unfolding_all decide)
      | exact Or.inr (le_trans
          (moduleScore_le_of_unbonused _ _ _ _
            (explicitlyRequested_eq_false
              (selectionMap_contains_false (by with_unfolding_all decide)) _)
            (by with_unfolding_all decide) (by with_unfolding_all decide))
          (by with_unfolding_all decide))

/-- At most five scored entries can reach a score of 5. -/
theorem countP_scored_le (payload : BusinessInput) {s : ℕ} (hs : 5 ≤ s) :
    (scoredModules payload).countP (fun y => s ≤ y.1) ≤ 5 := by
  have hsub : (scoredModules payload).Sublist
      (catalog.map (fun m =>
        (moduleScore (scoreText payload) payload.selected_modules (hasAdminPain payload) m, m))) := by
    simp only [scoredModules]
    exact List.filter_sublist _
  refine le_trans (hsub.countP_le _) ?_
  rw [List.countP_map]
  have hpoint : ∀ m ∈ catalog,
      (fun m => decide (s ≤ (moduleScore (scoreText payload) payload.selected_modules
        (hasAdminPain payload) m, m).1)) m = true →
      (fun m => strongNames.contains m.name) m = true := by
    intro m hm hp
    rcases catalog_weak_score_le (scoreText payload) payload.selected_modules
        (hasAdminPain payload) m hm with hstrong | hle
    · exact hstrong
    · exfalso
      have hp2 := of_decide_eq_true hp
      simp only at hp2
      omega
  refine le_trans (List.countP_mono_left hpoint) (le_of_eq ?_)
  with_unfolding_all decide

/-- C3 (amended): every **catalog** module named in the expansion of a
selected priority key always appears in the scorer's recommended or optional
output.  (The claim's further assertion that each of the six priority keys
surfaces a corresponding module fails for the two keys whose expansions name
no catalog module; see the counterexample.) -/
theorem score_modules_explicit_priority (payload : BusinessInput)
    (key : String) (m : AutomationModule)
    (hkey : key ∈ payload.selected_modules) (hm : m ∈ catalog)
    (hname : (selectionMap key).contains m.name = true) :
    m ∈ (score_modules payload).1 ∨ m ∈ (score_modules payload).2 := by
  have hreq : explicitlyRequested payload.selected_modules m.name = true := by
    simp only [explicitlyRequested, List.any_eq_true]
    exact ⟨key, hkey, hname⟩
  have hs5 : 5 ≤ moduleScore (scoreText payload) payload.selected_modules
      (hasAdminPain payload) m := by
    simp only [moduleScore, hreq, if_pos]
    omega
  have hmem_scored : (moduleScore (scoreText payload) payload.selected_modules
      (hasAdminPain payload) m, m) ∈ scoredModules payload := by
    simp only [scoredModules]
    refine List.mem_filter.mpr ⟨List.mem_map.mpr ⟨m, hm, rfl⟩, ?_⟩
    simp only [hreq, Bool.true_or, Bool.and_true]
    simpa using by omega
  have hperm := sortDesc_perm (scoredModules payload)
  have hmem_sorted := hperm.mem_iff.mpr hmem_scored
  have hcount : (sortDesc (scoredModules payload)).countP
      (fun y => moduleScore (scoreText payload) payload.selected_modules
        (hasAdminPain payload) m ≤ y.1) ≤ 9 := by
    rw [hperm.countP_eq]
    exact le_trans (countP_scored_le payload hs5) (by norm_num)
  have htake := sorted_take_mem (sortDesc_sorted (scoredModules payload))
    hmem_sorted hcount
  have hranked : m ∈ (rankedModules payload).take 9 := by
    rw [rankedModules, ← List.map_take]
    exact List.mem_map.mpr ⟨_, htake, rfl⟩
  have hr9 : (rankedModules payload).take 9
      = (rankedModules payload).take 5
        ++ ((rankedModules payload).drop 5).take 4 := by
    rw [show (9 : ℕ) = 5 + 4 from rfl, List.take_add]
  rw [hr9] at hranked
  have hne : ¬ ((rankedModules payload).take 5).isEmpty = true := by
    have hmem_ranked : m ∈ rankedModules payload := by
      rw [rankedModules]
      exact List.mem_map.mpr ⟨_, hmem_sorted, rfl⟩
    have : rankedModules payload ≠ [] := List.ne_nil_of_mem hmem_ranked
    simp [List.isEmpty_iff, List.take_eq_nil_iff, this]
  have hsm : score_modules payload
      = ((rankedModules payload).take 5,
        (((rankedModules payload).drop 5).take 4).filter
          (fun x => ¬ ((rankedModules payload).take 5).contains x)) := by
    simp only [score_modules]
    rw [if_neg hne]
    rw [if_neg hne]
  rcases List.mem_append.mp hranked with h5 | h4
  · left
    rw [hsm]
    exact h5
  · by_cases hmem5 : m ∈ (rankedModules payload).take 5
    · left
      rw [hsm]
      exact hmem5
    · right
      rw [hsm]
      refine List.mem_filter.mpr ⟨h4, ?_⟩
      simpa using hmem5

/-- C3 (counterexample): selecting the priority key `conciliacion_automatica`
surfaces no corresponding module: its expansion names
`Conciliacion automatica (banco vs ventas)`, which matches no catalog entry,
so on a signal-free intake the scorer outputs only generic fallback modules,
none of them in the expansion. -/
theorem priority_key_claim_counterexample :
    "conciliacion_automatica"
      ∈ (BusinessInput.selected_modules
          { company_name := "qq", industry := "qq", business_focus := "qqq"
          , team_size := 3, selected_modules := ["conciliacion_automatica"]
          , bottlenecks := "zzzzz" }) ∧
    (((score_modules
        { company_name := "qq", industry := "qq", business_focus := "qqq"
        , team_size := 3, selected_modules := ["conciliacion_automatica"]
        , bottlenecks := "zzzzz" }).1
      ++ (score_modules
        { company_name := "qq", industry := "qq", business_focus := "qqq"
        , team_size := 3, selected_modules := ["conciliacion_automatica"]
        , bottlenecks := "zzzzz" }).2).all
      (fun m => !(selectionMap "conciliacion_automatica").contains m.name)) = true ∧
    ((score_modules
        { company_name := "qq", industry := "qq", business_focus := "qqq"
        , team_size := 3, selected_modules := ["conciliacion_automatica"]
        , bottlenecks := "zzzzz" }).1
      ++ (score_modules
        { company_name := "qq", industry := "qq", business_focus := "qqq"
        , team_size := 3, selected_modules := ["conciliacion_automatica"]
        , bottlenecks := "zzzzz" }).2) ≠ [] := by
  with_unfolding_all decide

/-- The `Reportes y dashboards operativos` catalog entry. -/
def reportesModule : AutomationModule :=
  { name := "Reportes y dashboards operativos"
  , description := "Convierte datos dispersos en dashboards semanales con alertas."
  , effort := "S", impact := 3
  , integrations := ["BI", "Google Sheets"]
  , estimated_weeks := 2
  , tags := ["reporte", "dashboard", "kpi", "excel", "administracion", "indicadores"] }

/-- C3 witness: selecting `dashboards_reportes` surfaces the dashboards
module on an otherwise signal-free intake. -/
theorem score_modules_explicit_priority_witness :
    "dashboards_reportes"
      ∈ (BusinessInput.selected_modules
          { company_name := "qq", industry := "qq", business_focus := "qqq"
          , team_size := 3, selected_modules := ["dashboards_reportes"]
          , bottlenecks := "zzzzz" }) ∧
    reportesModule ∈ catalog ∧
    (selectionMap "dashboards_reportes").contains reportesModule.name = true ∧
    (reportesModule ∈ (score_modules
        { company_name := "qq", industry := "qq", business_focus := "qqq"
        , team_size := 3, selected_modules := ["dashboards_reportes"]
        , bottlenecks := "zzzzz" }).1
      ∨ reportesModule ∈ (score_modules
        { company_name := "qq", industry := "qq", business_focus := "qqq"
        , team_size := 3, selected_modules := ["dashboards_reportes"]
        , bottlenecks := "zzzzz" }).2) :=
  ⟨by with_unfolding_all decide, by with_unfolding_all decide,
   by with_unfolding_all decide,
   score_modules_explicit_priority _ "dashboards_reportes" reportesModule
     (by with_unfolding_all decide) (by with_unfolding_all decide)
     (by with_unfolding_all decide)⟩

/-! ## C5: fallback behavior of the diagnosis orchestrator -/

theorem pyGet_nil (k : String) : pyGet [] k = none := rfl

theorem jList_nil (k : String) (d : List String) : jList [] k d = d := rfl

theorem clean_map_eq {l : List String} (h : ∀ s ∈ l, s.trim = s) :
    (l.map JValue.str).map (fun v => (pyStr v).trim) = l := by
  rw [List.map_map]
  have : ∀ s ∈ l, ((fun v => (pyStr v).trim) ∘ JValue.str) s = id s := by
    intro s hs
    simpa using h s hs
  rw [List.map_congr_left this, List.map_id]

/-- With an empty parsed object (the no-extractable-JSON path), the merge
returns the fallback with every list field cleaned and truncated, provided
the guesses are trimmed catalog names of bounded length. -/
theorem mergeDiagnosis_empty (ms : List String) (payload : BusinessInput)
    (f rg og : List String)
    (hrg : ∀ n ∈ rg, n ∈ ms ∧ n.trim = n) (hrgl : rg.length ≤ 5)
    (hog : ∀ n ∈ og, (n ∈ ms ∧ n.trim = n) ∧ n ∉ rg) (hogl : og.length ≤ 4)
    (hf : ∀ s ∈ f, s.trim = s ∧ s ≠ "") :
    mergeDiagnosis ms (fallback_result payload f rg og) rg []
      = .ok { fallback_result payload f rg og with
          pain_points := (fallback_result payload f rg og).pain_points.take 6,
          opportunities := (fallback_result payload f rg og).opportunities.take 6,
          limitations := (fallback_result payload f rg og).limitations.take 3,
          data_needed := (fallback_result payload f rg og).data_needed.take 6,
          extra_options := (fallback_result payload f rg og).extra_options.take 4 } := by
  have htrim0 : ("" : String).trim = "" := by with_unfolding_all decide
  have htl0 : (("" : String).toLower).trim = "" := by with_unfolding_all decide
  have hgen : ("Hay tiempos muertos y poca visibilidad: hoy no sabes que pasa en tiempo real." : String).trim
      = "Hay tiempos muertos y poca visibilidad: hoy no sabes que pasa en tiempo real."
      ∧ ("Hay tiempos muertos y poca visibilidad: hoy no sabes que pasa en tiempo real." : String)
        ≠ "" := by
    constructor
    · with_unfolding_all decide
    · with_unfolding_all decide
  have hfbpain : ∀ s ∈ (fallback_result payload f rg og).pain_points,
      s.trim = s ∧ s ≠ "" := by
    simp only [fallback_result]
    split_ifs with hfe
    · intro s hs
      rcases List.mem_singleton.mp hs with rfl
      exact hgen
    · exact hf
  have hfbpain_ne : (fallback_result payload f rg og).pain_points ≠ [] := by
    simp only [fallback_result]
    split_ifs with hfe
    · simp
    · simpa [List.isEmpty_iff] using hfe
  have hrec : (fallback_result payload f rg og).recommended_modules = rg := rfl
  have hopt : (fallback_result payload f rg og).optional_modules = og := rfl
  -- the cleaned pain list
  have hpainclean :
      (((fallback_result payload f rg og).pain_points.map JValue.str).map
        (fun v => (pyStr v).trim)).filter (fun s => s ≠ "")
      = (fallback_result payload f rg og).pain_points := by
    rw [clean_map_eq (fun s hs => (hfbpain s hs).1)]
    exact List.filter_eq_self.mpr (fun s hs => by simpa using (hfbpain s hs).2)
  -- the cleaned recommended list
  have hrecclean : ((rg.map JValue.str).map (fun v => (pyStr v).trim)).filter
      (fun n => ms.contains n) = rg := by
    rw [clean_map_eq (fun n hn => (hrg n hn).2)]
    refine List.filter_eq_self.mpr (fun n hn => ?_)
    simpa [List.elem_iff] using (hrg n hn).1
  -- the cleaned optional list
  have hoptclean : ((og.map JValue.str).map (fun v => (pyStr v).trim)).filter
      (fun n => ms.contains n && !rg.contains n) = og := by
    rw [clean_map_eq (fun n hn => (hog n hn).1.2)]
    refine List.filter_eq_self.mpr (fun n hn => ?_)
    have h1 := (hog n hn).1.1
    have h2 := (hog n hn).2
    simp [List.elem_iff, h1, h2]
  have hrg5 : List.take 5 rg = rg := List.take_of_length_le hrgl
  have hog4 : List.take 4 og = og := List.take_of_length_le hogl
  have hfilter_rg : rg.filter (fun n => ms.contains n) = rg :=
    List.filter_eq_self.mpr (fun n hn => by simpa [List.elem_iff] using (hrg n hn).1)
  have hpain6 : (((fallback_result payload f rg og).pain_points.take 6).isEmpty = true)
      = False := by
    simp [List.isEmpty_iff, List.take_eq_nil_iff, hfbpain_ne]
  have hsum : pyOr "" (fallback_result payload f rg og).summary
      = (fallback_result payload f rg og).summary := by simp [pyOr]
  have hcl : (fallback_result payload f rg og).complexity_level = none := rfl
  have hlev : (decide (("" : String) = "low") || decide (("" : String) = "medium")
      || decide (("" : String) = "high")) = false := by with_unfolding_all decide
  simp only [mergeDiagnosis, pyGet_nil, getOrEmptyStr, htrim0, htl0,
    Option.getD_none, hrec, hopt, hpainclean, hrecclean, hoptclean]
  simp only [if_true, hrg5, hfilter_rg, ite_self, hpain6, if_false, hsum, jList_nil,
    hlev, Bool.false_eq_true, hcl]
  simp only [hoptclean, hog4]

/-- C5 (counterexample): the claim also asserts the exact fallback is returned
when the call yields no parseable text, but that path re-runs the field-by-field
merge against an empty object, which truncates long fallback lists.  On an
intake whose text mentions inventario, factura and whatsapp (fallback
`data_needed` has 7 entries) the unparseable-text result keeps only 6. -/
theorem diagnosis_fallback_claim_counterexample :
    (fallback_result
      { company_name := "qq", industry := "qq", business_focus := "qqq"
      , team_size := 3, processes := "inventario factura whatsapp"
      , bottlenecks := "zzzzz" }
      ["f"] ["Facturacion inteligente"] ["Reportes y dashboards operativos"]).data_needed.length
      = 7 ∧
    ((consultant_diagnosis "k"
        { company_name := "qq", industry := "qq", business_focus := "qqq"
        , team_size := 3, processes := "inventario factura whatsapp"
        , bottlenecks := "zzzzz" }
        ["f"]
        (catalog.map (fun m =>
          ({ name := m.name, description := m.description, integrations := m.integrations
           , estimated_weeks := m.estimated_weeks, impact := m.impact } : ModuleInfo)))
        ["Facturacion inteligente"] ["Reportes y dashboards operativos"]
        (some none)).toOption.map (fun d => d.data_needed.length)) = some 6 ∧
    (6 : ℕ) ≠ 7 := by
  refine ⟨?_, ?_, by norm_num⟩
  · with_unfolding_all decide
  · with_unfolding_all decide

/-- C5 (amended): with no API credential the exact local fallback is returned
for every reply (no call can influence the result); with a credential but no
text from the call the exact fallback is returned; with unparseable text the
result equals the fallback except that its list fields are cleaned and
truncated (pain 6, opportunities 6, limitations 3, data_needed 6, extras 4). -/
theorem consultant_diagnosis_fallback (k : String) (payload : BusinessInput)
    (f rg og : List String) (avail : List ModuleInfo) :
    (k.trim = "" → ∀ reply, consultant_diagnosis k payload f avail rg og reply
        = .ok (fallback_result payload f rg og)) ∧
    (consultant_diagnosis k payload f avail rg og none
        = .ok (fallback_result payload f rg og)) ∧
    (k.trim ≠ "" → moduleSetOf avail ≠ [] →
      (∀ n ∈ rg, n ∈ moduleSetOf avail ∧ n.trim = n) → rg.length ≤ 5 →
      (∀ n ∈ og, (n ∈ moduleSetOf avail ∧ n.trim = n) ∧ n ∉ rg) → og.length ≤ 4 →
      (∀ s ∈ f, s.trim = s ∧ s ≠ "") →
      consultant_diagnosis k payload f avail rg og (some none)
        = .ok { fallback_result payload f rg og with
            pain_points := (fallback_result payload f rg og).pain_points.take 6,
            opportunities := (fallback_result payload f rg og).opportunities.take 6,
            limitations := (fallback_result payload f rg og).limitations.take 3,
            data_needed := (fallback_result payload f rg og).data_needed.take 6,
            extra_options := (fallback_result payload f rg og).extra_options.take 4 }) := by
  refine ⟨?_, ?_, ?_⟩
  · intro hk reply
    simp only [consultant_diagnosis]
    rw [if_pos (Or.inl hk)]
  · simp only [consultant_diagnosis]
    split_ifs <;> rfl
  · intro hk hms hrg hrgl hog hogl hf
    simp only [consultant_diagnosis]
    rw [if_neg ?hc]
    case hc =>
      rintro (h1 | h2)
      · exact hk h1
      · exact hms (List.isEmpty_iff.mp h2)
    exact mergeDiagnosis_empty (moduleSetOf avail) payload f rg og hrg hrgl hog hogl hf

/-- C5 witness: the amended fallback behavior at a concrete credential-free
call, a concrete no-text call, and a concrete unparseable-text call. -/
theorem consultant_diagnosis_fallback_witness :
    (("" : String).trim = "" ∧
      consultant_diagnosis ""
        { company_name := "qq", industry := "qq", business_focus := "qqq"
        , team_size := 3, bottlenecks := "zzzzz" }
        ["f"] [{ name := "M", description := "d", integrations := [], estimated_weeks := 1
               , impact := 1 }] ["M"] [] (some (some [("summary", JValue.str "ignored")]))
        = .ok (fallback_result
            { company_name := "qq", industry := "qq", business_focus := "qqq"
            , team_size := 3, bottlenecks := "zzzzz" } ["f"] ["M"] [])) ∧
    (consultant_diagnosis "k"
        { company_name := "qq", industry := "qq", business_focus := "qqq"
        , team_size := 3, bottlenecks := "zzzzz" }
        ["f"] [{ name := "M", description := "d", integrations := [], estimated_weeks := 1
               , impact := 1 }] ["M"] [] (some none)
        = .ok { fallback_result
            { company_name := "qq", industry := "qq", business_focus := "qqq"
            , team_size := 3, bottlenecks := "zzzzz" } ["f"] ["M"] [] with
            pain_points := (fallback_result
              { company_name := "qq", industry := "qq", business_focus := "qqq"
              , team_size := 3, bottlenecks := "zzzzz" } ["f"] ["M"] []).pain_points.take 6,
            opportunities := (fallback_result
              { company_name := "qq", industry := "qq", business_focus := "qqq"
              , team_size := 3, bottlenecks := "zzzzz" } ["f"] ["M"] []).opportunities.take 6,
            limitations := (fallback_result
              { company_name := "qq", industry := "qq", business_focus := "qqq"
              , team_size := 3, bottlenecks := "zzzzz" } ["f"] ["M"] []).limitations.take 3,
            data_needed := (fallback_result
              { company_name := "qq", industry := "qq", business_focus := "qqq"
              , team_size := 3, bottlenecks := "zzzzz" } ["f"] ["M"] []).data_needed.take 6,
            extra_options := (fallback_result
              { company_name := "qq", industry := "qq", business_focus := "qqq"
              , team_size := 3, bottlenecks := "zzzzz" } ["f"] ["M"] []).extra_options.take 4 }) :=
  ⟨⟨by with_unfolding_all decide,
    (consultant_diagnosis_fallback "" _ ["f"] ["M"] [] _).1 (by with_unfolding_all decide) _⟩,
   (consultant_diagnosis_fallback "k" _ ["f"] ["M"] [] _).2.2
     (by with_unfolding_all decide) (by with_unfolding_all decide)
     (by with_unfolding_all decide) (by with_unfolding_all decide)
     (by with_unfolding_all decide) (by with_unfolding_all decide)
     (by with_unfolding_all decide)⟩

/-! ## C6: the merge on a wrong-typed `complexity_assessment` -/

/-- C6 (failing input): a parsed model response whose `complexity_assessment`
is a truthy non-object (here the string `"alto"`) makes the Python merge call
`.get` on a non-dict and raise `AttributeError` — the whole diagnosis (and the
whole `run_analysis` request) fails instead of falling back field-by-field,
contradicting the claim that wrong-typed fields are discarded and the
team-size heuristic stands.  Every other field of the merge is
isinstance-guarded; only `complexity_assessment` is not. -/
theorem merge_complexity_crash :
    mergeDiagnosis ["Facturacion inteligente"]
      (fallback_result emptySignalInput ["f"] [] []) []
      [("complexity_assessment", JValue.str "alto")]
      = .error "AttributeError: object has no attribute get" ∧
    (consultant_diagnosis "k" emptySignalInput ["f"]
      (catalog.map (fun m =>
        ({ name := m.name, description := m.description, integrations := m.integrations
         , estimated_weeks := m.estimated_weeks, impact := m.impact } : ModuleInfo)))
      [] [] (some (some [("complexity_assessment", JValue.str "alto")]))).toOption = none ∧
    (run_analysis "k" emptySignalInput
      (some (some [("complexity_assessment", JValue.str "alto")]))).toOption = none := by
  refine ⟨by with_unfolding_all rfl, ?_, ?_⟩
  · with_unfolding_all decide
  · with_unfolding_all decide

/-! ## C10: no division hazards in run_analysis -/

theorem except_map_eq_ok {f : DiagnosisResult → AnalysisOutput}
    {e : Except String DiagnosisResult} {out : AnalysisOutput} :
    e.map f = .ok out ↔ ∃ d, e = .ok d ∧ out = f d := by
  cases e with
  | error a => simp [Except.map]
  | ok d => simp [Except.map, eq_comm]

theorem pyRound_zero : pyRound 0 = 0 := by
  norm_num [pyRound]

theorem pyRound2_zero : pyRound2 0 = 0 := by
  norm_num [pyRound2, pyRound_zero]

/-- With zero manual hours every ROI total vanishes. -/
theorem roi_breakdown_zero (cfg : LaborConfig) (text : String) (sel : List String) :
    (roi_breakdown cfg 0 text sel).total_mxn_per_month = 0 ∧
    (roi_breakdown cfg 0 text sel).time_value_mxn_per_month = 0 ∧
    (roi_breakdown cfg 0 text sel).total_with_opportunity_mxn_per_year = 0 := by
  simp [roi_breakdown]

/-- C10: the payback divisor `max(total, 1)` and the configuration divisors
`max(workdays, 1)` and `max(hours_day, 1)` are strictly positive for every
intake, and `roi_multiple`'s divisor `max(setup, 1)` is at least 1; when
`manual_hours_per_week = 0` the analysis still completes with all ROI totals
zero and `payback_months` equal to the setup fee. -/
theorem run_analysis_no_division_hazard (k : String) (payload : BusinessInput)
    (reply : Option (Option JObj)) :
    (0 : ℚ) < max (roi_breakdown defaultLaborConfig payload.manual_hours_per_week
        (payload.bottlenecks ++ " " ++ payload.processes ++ " " ++ payload.systems)
        payload.selected_modules).total_mxn_per_month 1 ∧
    (0 : ℚ) < max defaultLaborConfig.workdays 1 ∧
    (0 : ℚ) < max defaultLaborConfig.hours_day 1 ∧
    (payload.manual_hours_per_week = 0 →
      match run_analysis k payload reply with
      | .ok out =>
          out.roi_mxn_saved_per_month = 0 ∧
          out.roi_time_value_mxn_per_month = 0 ∧
          out.roi_total_with_opportunity_mxn_per_year = 0 ∧
          out.payback_months = (out.pricing.setup_fee_mxn : ℚ) ∧
          (1 : ℤ) ≤ max out.pricing.setup_fee_mxn 1
      | .error _ => True) := by
  refine ⟨lt_of_lt_of_le one_pos (le_max_right _ _),
    lt_of_lt_of_le one_pos (le_max_right _ _),
    lt_of_lt_of_le one_pos (le_max_right _ _), ?_⟩
  intro h0
  cases hrun : run_analysis k payload reply with
  | error e => trivial
  | ok out =>
      obtain ⟨d, _, hout⟩ := except_map_eq_ok.mp hrun
      subst hout
      simp only [run_analysis_body, h0]
      obtain ⟨ht, _, hy⟩ := roi_breakdown_zero defaultLaborConfig
        (payload.bottlenecks ++ " " ++ payload.processes ++ " " ++ payload.systems)
        payload.selected_modules
      refine ⟨?_, ?_, ?_, ?_, le_max_right _ _⟩
      · rw [ht, pyRound2_zero]
      · rw [(roi_breakdown_zero _ _ _).2.1, pyRound2_zero]
      · rw [hy, pyRound2_zero]
      · rw [ht]
        norm_num [pyRound2_intCast]

/-- C10 witness: the zero-hours guarantee at a concrete zero-hours intake. -/
theorem run_analysis_no_division_hazard_witness :
    BusinessInput.manual_hours_per_week emptySignalInput = 0 ∧
    (match run_analysis "" emptySignalInput none with
      | .ok out =>
          out.roi_mxn_saved_per_month = 0 ∧
          out.roi_time_value_mxn_per_month = 0 ∧
          out.roi_total_with_opportunity_mxn_per_year = 0 ∧
          out.payback_months = (out.pricing.setup_fee_mxn : ℚ) ∧
          (1 : ℤ) ≤ max out.pricing.setup_fee_mxn 1
      | .error _ => True) :=
  ⟨rfl, (run_analysis_no_division_hazard "" emptySignalInput none).2.2.2 rfl⟩

/-! ## C1: the output contract of run_analysis -/

/-- The scorer always returns 1-5 recommended and 0-4 optional modules. -/
theorem score_modules_len (payload : BusinessInput) :
    1 ≤ (score_modules payload).1.length ∧ (score_modules payload).1.length ≤ 5 ∧
    (score_modules payload).2.length ≤ 4 := by
  simp only [score_modules]
  split_ifs with h1 h2
  · exact ⟨by with_unfolding_all decide, by with_unfolding_all decide,
      by with_unfolding_all decide⟩
  · exact ⟨by with_unfolding_all decide, by with_unfolding_all decide,
      by with_unfolding_all decide⟩
  · have hne : ¬ (rankedModules payload).take 5 = [] := by
      intro hnil
      exact h1 (by simp [hnil])
    refine ⟨List.length_pos.mpr hne, List.length_take_le _ _,
      le_trans (List.length_filter_le _ _) (List.length_take_le _ _)⟩

/-- The merge keeps the recommended list at 5 and the optional list at 4
entries at most, whenever the fallback lists are themselves bounded. -/
theorem mergeDiagnosis_len_le (ms : List String) (fb : DiagnosisResult)
    (rg : List String) (parsed : JObj) (d : DiagnosisResult)
    (hd : mergeDiagnosis ms fb rg parsed = .ok d)
    (hfb5 : fb.recommended_modules.length ≤ 5) :
    d.recommended_modules.length ≤ 5 ∧ d.optional_modules.length ≤ 4 := by
  simp only [mergeDiagnosis] at hd
  split at hd
  · exact absurd hd (by simp)
  · rw [Except.ok.injEq] at hd
    subst hd
    constructor
    · dsimp only
      split_ifs with hA hB
      · exact hfb5
      · exact List.length_take_le _ _
      · exact List.length_take_le _ _
    · exact List.length_take_le _ _

/-- The diagnosis dictionary respects the 5/4 length bounds whenever the
guesses do. -/
theorem consultant_diagnosis_len_le (k : String) (payload : BusinessInput)
    (f : List String) (avail : List ModuleInfo) (rg og : List String)
    (reply : Option (Option JObj)) (d : DiagnosisResult)
    (hd : consultant_diagnosis k payload f avail rg og reply = .ok d)
    (hrg : rg.length ≤ 5) (hog : og.length ≤ 4) :
    d.recommended_modules.length ≤ 5 ∧ d.optional_modules.length ≤ 4 := by
  simp only [consultant_diagnosis] at hd
  split_ifs at hd
  · rw [Except.ok.injEq] at hd
    subst hd
    exact ⟨hrg, hog⟩
  · split at hd
    · rw [Except.ok.injEq] at hd
      subst hd
      exact ⟨hrg, hog⟩
    · exact mergeDiagnosis_len_le _ _ _ _ _ hd hrg

/-- With no model text, `consultant_diagnosis` always succeeds with the
fallback dictionary. -/
theorem consultant_diagnosis_none_eq (k : String) (payload : BusinessInput)
    (f : List String) (avail : List ModuleInfo) (rg og : List String) :
    consultant_diagnosis k payload f avail rg og none
      = .ok (fallback_result payload f rg og) := by
  simp only [consultant_diagnosis]
  split_ifs <;> rfl

/-- Modules produced by the optional-list construction of `run_analysis`
never share a name with the recommended list it filters against. -/
theorem optional_names_disjoint (names : List String)
    (M : List AutomationModule) (mo : AutomationModule)
    (hmo : mo ∈ names.filterMap (fun name =>
      match catalog.find? (fun m => m.name = name) with
      | some m => if (M.map (fun x => x.name)).contains name then none
          else some m
      | none => none)) :
    ∀ mr ∈ M, mo.name ≠ mr.name := by
  obtain ⟨name, _, hf⟩ := List.mem_filterMap.mp hmo
  rcases hfind : catalog.find? (fun m => m.name = name) with _ | m
  · rw [hfind] at hf
    simp at hf
  · rw [hfind] at hf
    split_ifs at hf with hC
    simp only [Option.some.injEq] at hf
    have hdm := List.find?_some hfind
    have hmoname : mo.name = name := by
      rw [← hf]
      exact of_decide_eq_true hdm
    intro mr hmr heq
    apply hC
    refine List.elem_iff.mpr (List.mem_map.mpr ⟨mr, hmr, ?_⟩)
    rw [← heq]
    exact hmoname

/-- C1: for every intake and every model-boundary outcome, whenever
`run_analysis` returns a result its recommended list has 1 to 5 modules, its
optional list at most 4, and the two lists share no module name; moreover in
the model-absent case (`reply = none`) `run_analysis` always returns a
result. -/
theorem run_analysis_output_contract (k : String) (payload : BusinessInput)
    (reply : Option (Option JObj)) :
    (match run_analysis k payload reply with
      | .ok out =>
          1 ≤ out.recommended_modules.length ∧ out.recommended_modules.length ≤ 5 ∧
          out.optional_modules.length ≤ 4 ∧
          ∀ mo ∈ out.optional_modules, ∀ mr ∈ out.recommended_modules,
            mo.name ≠ mr.name
      | .error _ => True) ∧
    ∃ out, run_analysis k payload none = .ok out := by
  constructor
  · cases hrun : run_analysis k payload reply with
    | error e => trivial
    | ok out =>
        obtain ⟨d, hd, hout⟩ := except_map_eq_ok.mp hrun
        subst hout
        have hdlen := consultant_diagnosis_len_le _ _ _ _ _ _ _ _ hd
          (by simpa using (score_modules_len payload).2.1)
          (by simpa using (score_modules_len payload).2.2)
        simp only [run_analysis_body]
        have hnames5 : (if d.recommended_modules.isEmpty then
            (score_modules payload).1.map (fun m => m.name)
          else d.recommended_modules).length ≤ 5 := by
          split_ifs
          · simpa using (score_modules_len payload).2.1
          · exact hdlen.1
        have honames4 : (if d.optional_modules.isEmpty then
            (score_modules payload).2.map (fun m => m.name)
          else d.optional_modules).length ≤ 4 := by
          split_ifs
          · simpa using (score_modules_len payload).2.2
          · exact hdlen.2
        refine ⟨?_, ?_, ?_, ?_⟩
        · dsimp only
          split_ifs <;>
            first
              | with_unfolding_all decide
              | exact (score_modules_len payload).1
              | (rename_i hne
                 exact List.length_pos.mpr (fun hnil => hne (by rw [hnil]; rfl)))
        · dsimp only
          split_ifs <;>
            first
              | with_unfolding_all decide
              | exact (score_modules_len payload).2.1
              | exact le_trans (List.length_filterMap_le _ _)
                  (by simpa using (score_modules_len payload).2.1)
              | exact le_trans (List.length_filterMap_le _ _) hdlen.1
        · dsimp only
          split_ifs <;>
            first
              | exact le_trans (List.length_filterMap_le _ _)
                  (by simpa using (score_modules_len payload).2.2)
              | exact le_trans (List.length_filterMap_le _ _) hdlen.2
        · dsimp only
          intro mo hmo mr hmr
          exact optional_names_disjoint _ _ mo hmo mr hmr
  · refine ⟨run_analysis_body payload
      (fallback_result payload (pick_friction_points payload)
        ((score_modules payload).1.map (fun m => m.name))
        ((score_modules payload).2.map (fun m => m.name))), ?_⟩
    rw [run_analysis, consultant_diagnosis_none_eq]
    rfl

end Engine
